import Mathlib

/-!
# Feishu voice-message sender: `scripts/send-voice.mjs`

A shallow embedding of the script and the properties its specification states.

The script is a straight line: resolve the options, print the usage text on
`--help`, validate, then run three HTTP calls (tenant token, file upload,
message send) inside one `try`/`catch`.  The embedding keeps that shape:

* JavaScript values (`JSValue`, `JSNumber`) and the built-ins the script calls
  (`parseInt`, `Number.prototype.toString`, template interpolation,
  `JSON.stringify`) are modelled after ECMA-262;
* the option values returned by `util.parseArgs`, the two environment
  variables, the file system and the network are inputs (`Args`, `ProcessEnv`,
  `Host`);
* effects are explicit: a `Script` threads the console calls and the HTTP
  requests made so far, and completes normally, by `process.exit`, or by a
  thrown error.

Strings are Lean strings (sequences of Unicode scalar values), i.e. the
well-formed JavaScript strings.
-/

namespace SendVoice

/-! ## JavaScript numbers -/

/-- A JavaScript Number, as far as the script can observe one.  `int v` is a finite
double whose value is the integer `v` (the sign of zero is not kept: the script
only negates, compares with `0` and prints numbers, and `-0` behaves as `0`
there).  `frac text` is a finite double that is not an integer; the script never
computes with one, it can only print it, so it is carried by its
`Number::toString` text. -/
inductive JSNumber where
  | nan
  | posInf
  | negInf
  | int (v : Int)
  | frac (text : String)
  deriving DecidableEq, Repr

/-- Counts binary digits by repeated halving; `fuel` bounds the number of steps. -/
def bitLengthAux : Nat → Nat → Nat
  | 0, _ => 0
  | fuel + 1, n => if n = 0 then 0 else bitLengthAux fuel (n / 2) + 1

/-- Number of binary digits of a natural number (`0` for `0`). -/
def bitLength (n : Nat) : Nat := bitLengthAux n n

/-- The Number value for a non-negative mathematical integer (ECMA-262 `𝔽`):
round to nearest, ties to even, on a 53-bit significand.  `none` is the
overflow to infinity (results of `2^1024` and above). -/
def toF64 (n : Nat) : Option Nat :=
  if bitLength n ≤ 53 then some n
  else
    let e := bitLength n - 53
    let q := n >>> e
    let r := n % (1 <<< e)
    let half := 1 <<< (e - 1)
    let q1 := if half < r || (r == half && q % 2 == 1) then q + 1 else q
    let v := q1 <<< e
    if 1024 < bitLength v then none else some v

/-- ECMA-262 `StrWhiteSpaceChar`: white space and line terminators, the characters
`parseInt` skips at the start of its input. -/
def isStrWhiteSpaceChar (c : Char) : Bool :=
  let n := c.toNat
  n == 9 || n == 10 || n == 11 || n == 12 || n == 13 || n == 32 || n == 160 ||
  n == 5760 || (8192 ≤ n && n ≤ 8202) || n == 8232 || n == 8233 || n == 8239 ||
  n == 8287 || n == 12288 || n == 65279

/-- Value of a run of decimal digits, most significant first. -/
def digitsValue : List Char → Nat → Nat
  | [], acc => acc
  | c :: cs, acc => digitsValue cs (acc * 10 + (c.toNat - 48))

/-- Removes one leading sign character, as `parseInt` does. -/
def dropSign : List Char → List Char
  | c :: cs => if c = '-' || c = '+' then cs else c :: cs
  | [] => []

/-- The call `parseInt(input, 10)`: skip leading white space, read an optional sign,
take the longest run of decimal digits; no digit gives `NaN`, otherwise the
digits' value, signed, as a Number.  The value is converted exactly (ECMA-262
lets an engine zero the digits after the twentieth significant one; V8 does
not). -/
def parseInt (input : String) : JSNumber :=
  let s := input.data.dropWhile isStrWhiteSpaceChar
  let neg := s.head? == some '-'
  let z := (dropSign s).takeWhile Char.isDigit
  if z.isEmpty then JSNumber.nan
  else
    match toF64 (digitsValue z 0) with
    | none => if neg then JSNumber.negInf else JSNumber.posInf
    | some v => JSNumber.int (if neg then -(v : Int) else (v : Int))

/-- Drops the zeros at the end of a digit list. -/
def dropTrailingZeros (ds : List Char) : List Char :=
  (ds.reverse.dropWhile (fun c => c == '0')).reverse

/-- The decimal number with the fewest significant digits that still rounds to the
double `n`, for an integer `n` of `len` decimal digits: the first `k` for which
the `k`-digit truncation of `n` or its successor converts back to `n`; of two
such candidates the one closer to `n`. -/
def shortestDecimal (n len : Nat) : Nat :=
  let pick := fun (k : Nat) =>
    let unit := 10 ^ (len - (k + 1))
    let lo := (n / unit) * unit
    let hi := lo + unit
    let okLo := toF64 lo == some n
    let okHi := toF64 hi == some n
    if okLo && okHi then
      (if n - lo < hi - n then some lo
       else if hi - n < n - lo then some hi
       else if (lo / unit) % 2 == 0 then some lo else some hi)
    else if okLo then some lo
    else if okHi then some hi
    else none
  ((List.range len).findSome? pick).getD n

/-- The text `Number::toString` gives for a positive integer-valued double: plain
decimal digits below `10^21`, exponent form from there on.  Integers below
`2^53` are exact doubles and print as their decimal expansion. -/
def natNumberToString (n : Nat) : String :=
  if n < 2 ^ 53 then Nat.repr n
  else
    let d := shortestDecimal n (Nat.repr n).length
    let ds := (Nat.repr d).data
    if ds.length ≤ 21 then String.mk ds
    else
      let sig := dropTrailingZeros ds
      let mant := match sig with
        | [] => []
        | [c] => [c]
        | c :: cs => c :: '.' :: cs
      String.mk mant ++ "e+" ++ Nat.repr (ds.length - 1)

/-- The method `Number.prototype.toString()` (radix 10). -/
def numberToString : JSNumber → String
  | JSNumber.nan => "NaN"
  | JSNumber.posInf => "Infinity"
  | JSNumber.negInf => "-Infinity"
  | JSNumber.int v =>
      if v < 0 then "-" ++ natNumberToString v.natAbs else natNumberToString v.natAbs
  | JSNumber.frac text => text

/-- JavaScript truthiness of a Number: `NaN` and zero are falsy. -/
def JSNumber.truthy : JSNumber → Bool
  | JSNumber.nan => false
  | JSNumber.int v => v != 0
  | _ => true

/-- The comparison `x <= 0` on Numbers (false when `x` is `NaN`). -/
def JSNumber.leZero : JSNumber → Bool
  | JSNumber.nan => false
  | JSNumber.posInf => false
  | JSNumber.negInf => true
  | JSNumber.int v => v ≤ 0
  | JSNumber.frac text => text.data.head? == some '-'

/-! ## JavaScript values -/

/-- A JavaScript value of the kinds the script meets: the option values and the
bodies that `response.json()` returns, with `undefined` for what is absent. An
object is the list of its own properties in enumeration order. -/
inductive JSValue where
  | undefined
  | null
  | bool (b : Bool)
  | num (n : JSNumber)
  | str (s : String)
  | arr (items : List JSValue)
  | obj (fields : List (String × JSValue))

/-- An option value or environment variable (a string or `undefined`) as a value. -/
def optValue : Option String → JSValue
  | some s => JSValue.str s
  | none => JSValue.undefined

/-- Truthiness of a string-or-undefined: only a non-empty string is truthy. -/
def truthy : Option String → Bool
  | some s => s != ""
  | none => false

/-- The expression `a || b` on string-or-undefined operands. -/
def jsOr (a b : Option String) : Option String :=
  if truthy a then a else b

/-- Template interpolation of a string-or-undefined operand. -/
def optToString : Option String → String
  | some s => s
  | none => "undefined"

mutual
/-- The abstract operation `ToString`, which template literals apply to an
interpolated value: the text, or the message of the `TypeError` it throws.  An
array gives its `join(",")`.  An object gives `[object Object]` through the
inherited `toString`, unless it has an own `toString` member: a member of a
parsed body is never callable, the inherited `valueOf` returns the object, and
the conversion throws. -/
def JSValue.toJSString : JSValue → Except String String
  | JSValue.undefined => Except.ok "undefined"
  | JSValue.null => Except.ok "null"
  | JSValue.bool b => Except.ok (if b then "true" else "false")
  | JSValue.num n => Except.ok (numberToString n)
  | JSValue.str s => Except.ok s
  | JSValue.arr items =>
      match elementTexts items with
      | Except.ok texts => Except.ok (String.intercalate "," texts)
      | Except.error message => Except.error message
  | JSValue.obj fields =>
      if (fields.lookup "toString").isSome then
        Except.error "Cannot convert object to primitive value"
      else Except.ok "[object Object]"
/-- The texts `Array.prototype.join` puts together, left to right: empty for
`undefined` and `null` elements, `ToString` of the others. -/
def elementTexts : List JSValue → Except String (List String)
  | [] => Except.ok []
  | JSValue.undefined :: rest =>
      match elementTexts rest with
      | Except.ok texts => Except.ok ("" :: texts)
      | Except.error message => Except.error message
  | JSValue.null :: rest =>
      match elementTexts rest with
      | Except.ok texts => Except.ok ("" :: texts)
      | Except.error message => Except.error message
  | v :: rest =>
      match JSValue.toJSString v with
      | Except.error message => Except.error message
      | Except.ok text =>
          match elementTexts rest with
          | Except.ok texts => Except.ok (text :: texts)
          | Except.error message => Except.error message
end

/-- The strict comparison `v !== 0`. -/
def strictNeZero : JSValue → Bool
  | JSValue.num (JSNumber.int v) => v != 0
  | _ => true

/-- Property read `v.name`, for the names the script reads (`code`, `msg`,
`tenant_access_token`, `data`, `file_key`, `message_id`; none is a built-in
property): a `TypeError` on `undefined` and `null`, the own property of an
object, `undefined` otherwise. -/
def JSValue.getProp (v : JSValue) (name : String) : Except String JSValue :=
  match v with
  | JSValue.undefined =>
      Except.error ("Cannot read properties of undefined (reading \x27" ++ name ++ "\x27)")
  | JSValue.null =>
      Except.error ("Cannot read properties of null (reading \x27" ++ name ++ "\x27)")
  | JSValue.obj fields => Except.ok ((fields.lookup name).getD JSValue.undefined)
  | _ => Except.ok JSValue.undefined

/-! ## JSON.stringify -/

/-- Lower-case hexadecimal digit. -/
def hexDigit (n : Nat) : Char :=
  if n < 10 then Char.ofNat (48 + n) else Char.ofNat (87 + n)

/-- One code point as `QuoteJSONString` writes it: the two-character escapes for
backspace, tab, line feed, form feed, carriage return, the double quote and the
backslash; a `\u00XX` escape for the other control characters; anything else as
it is. -/
def jsonEscapeChar (c : Char) : List Char :=
  let n := c.toNat
  if n = 8 then [Char.ofNat 92, 'b']
  else if n = 9 then [Char.ofNat 92, 't']
  else if n = 10 then [Char.ofNat 92, 'n']
  else if n = 12 then [Char.ofNat 92, 'f']
  else if n = 13 then [Char.ofNat 92, 'r']
  else if n = 34 then [Char.ofNat 92, Char.ofNat 34]
  else if n = 92 then [Char.ofNat 92, Char.ofNat 92]
  else if n < 32 then [Char.ofNat 92, 'u', '0', '0', hexDigit (n / 16), hexDigit (n % 16)]
  else [c]

/-- The escaped characters of a whole string. -/
def jsonEscape : List Char → List Char
  | [] => []
  | c :: cs => jsonEscapeChar c ++ jsonEscape cs

/-- The operation `QuoteJSONString`: the escaped string between double quotes. -/
def quoteJSONString (s : String) : String :=
  String.mk (Char.ofNat 34 :: (jsonEscape s.data ++ [Char.ofNat 34]))

mutual
/-- The operation `SerializeJSONProperty` without indentation: `none` stands for
`undefined` (the value is left out). -/
def jsonSerialize : JSValue → Option String
  | JSValue.undefined => none
  | JSValue.null => some "null"
  | JSValue.bool b => some (if b then "true" else "false")
  | JSValue.num JSNumber.nan => some "null"
  | JSValue.num JSNumber.posInf => some "null"
  | JSValue.num JSNumber.negInf => some "null"
  | JSValue.num n => some (numberToString n)
  | JSValue.str s => some (quoteJSONString s)
  | JSValue.arr items => some ("[" ++ String.intercalate "," (serializeItems items) ++ "]")
  | JSValue.obj fields =>
      some ("\x7b" ++ String.intercalate "," (serializeFields fields) ++ "\x7d")
/-- Array elements: `undefined` is written `null`. -/
def serializeItems : List JSValue → List String
  | [] => []
  | v :: rest => (jsonSerialize v).getD "null" :: serializeItems rest
/-- Object members `"key":value`: a member whose value is `undefined` is skipped. -/
def serializeFields : List (String × JSValue) → List String
  | [] => []
  | (k, v) :: rest =>
      match jsonSerialize v with
      | none => serializeFields rest
      | some t => (quoteJSONString k ++ ":" ++ t) :: serializeFields rest
end

/-- The call `JSON.stringify` on an object literal with the given properties. -/
def stringifyObject (fields : List (String × JSValue)) : String :=
  "\x7b" ++ String.intercalate "," (serializeFields fields) ++ "\x7d"

/-- The template part `${JSON.stringify(v)}`. -/
def stringifyText (v : JSValue) : String :=
  (jsonSerialize v).getD "undefined"

/-! ## Inputs: options, environment, file system, network -/

/-- The option values `parseArgs` returns: each string option is a string or
`undefined`; `help` is set by `--help` or `-h`.  A command line that `parseArgs`
rejects (an unknown option, a positional argument, an option without its value)
never reaches the code below and is not an `Args`. -/
structure Args where
  appId : Option String
  appSecret : Option String
  userId : Option String
  chatId : Option String
  audioFile : Option String
  duration : Option String
  help : Bool

/-- The two environment variables the script reads. -/
structure ProcessEnv where
  FEISHU_APP_ID : Option String
  FEISHU_APP_SECRET : Option String

/-- A value appended to a `FormData`: a text field, or a `Blob` with a file name. -/
inductive FormValue where
  | text (value : String)
  | file (content : List Nat) (fileName : String)

/-- The body passed to `fetch`: a string, or a multipart form. -/
inductive RequestBody where
  | text (value : String)
  | form (entries : List (String × FormValue))

/-- One `fetch` call: the URL and the `method`, `headers` and `body` options. -/
structure Request where
  url : String
  method : String
  headers : List (String × String)
  body : RequestBody

/-- The world outside the script.  `fetch` stands for `fetch(...)` followed by
`response.json()`: the parsed body, or the message of the error either of them
rejects with.  `readFileSync` gives the file's bytes or the message of the error
it throws. -/
structure Host where
  existsSync : String → Bool
  readFileSync : String → Except String (List Nat)
  resolve : String → String
  basename : String → String
  fetch : Request → Except String JSValue

/-! ## Effects -/

/-- The console method called. -/
inductive Stream where
  | log
  | error
  | warn
  deriving DecidableEq

/-- One console call with its arguments. -/
structure ConsoleCall where
  stream : Stream
  args : List JSValue

/-- What the script has done so far: console calls and HTTP requests, oldest first. -/
structure Trace where
  console : List ConsoleCall
  requests : List Request

/-- How a piece of the script ends: with a value, by `process.exit(code)`, or by
throwing an error with the given `message`. -/
inductive Completion (α : Type) where
  | normal (value : α)
  | exit (code : Nat)
  | thrown (message : String)

/-- A piece of the script: from the trace so far to its completion and the new trace. -/
def Script (α : Type) : Type := Trace → Completion α × Trace

/-- Sequencing: the rest runs only after a normal completion. -/
def Script.bind {α β : Type} (x : Script α) (f : α → Script β) : Script β :=
  fun t =>
    match x t with
    | (Completion.normal a, t1) => f a t1
    | (Completion.exit code, t1) => (Completion.exit code, t1)
    | (Completion.thrown message, t1) => (Completion.thrown message, t1)

instance : Monad Script where
  pure := fun a t => (Completion.normal a, t)
  bind := Script.bind

/-- A call of `console.log`, `console.error` or `console.warn`. -/
def console (stream : Stream) (args : List JSValue) : Script Unit :=
  fun t => (Completion.normal (), { t with console := t.console ++ [⟨stream, args⟩] })

/-- Several console calls in a row. -/
def consoleAll (calls : List ConsoleCall) : Script Unit :=
  fun t => (Completion.normal (), { t with console := t.console ++ calls })

/-- The call `process.exit(code)`. -/
def processExit {α : Type} (code : Nat) : Script α :=
  fun t => (Completion.exit code, t)

/-- The statement `throw new Error(message)`, and the errors built-ins throw. -/
def throwNew {α : Type} (message : String) : Script α :=
  fun t => (Completion.thrown message, t)

/-- A built-in that returns or throws. -/
def liftExcept {α : Type} : Except String α → Script α
  | Except.ok a => pure a
  | Except.error message => throwNew message

/-- The block `try { body } catch (error) { handler(error.message) }`. -/
def tryCatch {α : Type} (body : Script α) (handler : String → Script α) : Script α :=
  fun t =>
    match body t with
    | (Completion.thrown message, t1) => handler message t1
    | r => r

/-- The pair `await fetch(...)`, `await response.json()`: the request is recorded,
then the host answers. -/
def fetchJson (host : Host) (req : Request) : Script JSValue :=
  fun t =>
    let t1 := { t with requests := t.requests ++ [req] }
    match host.fetch req with
    | Except.ok data => (Completion.normal data, t1)
    | Except.error message => (Completion.thrown message, t1)

/-- A path argument: Node throws a `TypeError` when it is `undefined`. -/
def requirePath (what : String) : Option String → Script String
  | some p => pure p
  | none => throwNew ("The \"" ++ what ++ "\" argument must be of type string. Received undefined")

/-! ## The script -/

/-- The usage text printed on `--help`. -/
def usageText : String :=
  "\nFeishu Voice Message Sender\n\nUsage:\n  node send-voice.mjs [options]\n\nOptions:\n" ++
  "  --app-id        Feishu App ID (or set FEISHU_APP_ID env)\n" ++
  "  --app-secret    Feishu App Secret (or set FEISHU_APP_SECRET env)\n" ++
  "  --user-id       Target user\x27s Open ID (send to user)\n" ++
  "  --chat-id       Target chat ID (send to group)\n" ++
  "  --audio-file    Path to OPUS audio file (required)\n" ++
  "  --duration      Audio duration in milliseconds (required)\n" ++
  "  -h, --help      Show this help message\n\nExamples:\n" ++
  "  # Send to user\n" ++
  "  node send-voice.mjs --app-id cli_xxx --app-secret xxx \\\n" ++
  "    --user-id ou_xxx --audio-file voice.opus --duration 3480\n\n" ++
  "  # Send to group chat\n" ++
  "  node send-voice.mjs --app-id cli_xxx --app-secret xxx \\\n" ++
  "    --chat-id oc_xxx --audio-file voice.opus --duration 3480\n"

/-- The module-level constants `APP_ID` ... `DURATION_MS`. -/
structure Config where
  APP_ID : Option String
  APP_SECRET : Option String
  USER_ID : Option String
  CHAT_ID : Option String
  AUDIO_FILE : Option String
  DURATION_MS : JSNumber

/-- The expression `value || fallback` with a string literal as the fallback. -/
def orDefault (value : Option String) (fallback : String) : String :=
  match value with
  | some s => if s != "" then s else fallback
  | none => fallback

/-- The `// Configuration` block: flags, with the environment as fallback for the
application id and secret; the duration parsed in base 10. -/
def resolveConfig (args : Args) (env : ProcessEnv) : Config :=
  { APP_ID := jsOr args.appId env.FEISHU_APP_ID
    APP_SECRET := jsOr args.appSecret env.FEISHU_APP_SECRET
    USER_ID := args.userId
    CHAT_ID := args.chatId
    AUDIO_FILE := args.audioFile
    DURATION_MS := parseInt (orDefault args.duration "0") }

/-- The `errors` array `validateParams` fills: one `push` per failed check, in
source order. -/
def validationErrors (cfg : Config) : List String :=
  (if !truthy cfg.APP_ID then ["Missing --app-id or FEISHU_APP_ID env"] else []) ++
  (if !truthy cfg.APP_SECRET then ["Missing --app-secret or FEISHU_APP_SECRET env"] else []) ++
  (if !truthy cfg.USER_ID && !truthy cfg.CHAT_ID then ["Missing --user-id or --chat-id"] else []) ++
  (if !truthy cfg.AUDIO_FILE then ["Missing --audio-file"] else []) ++
  (if !cfg.DURATION_MS.truthy || cfg.DURATION_MS.leZero then ["Missing or invalid --duration"]
   else [])

/-- The function `validateParams`: report all collected errors and exit 1; then
exit 1 if the audio file does not exist (`fs.existsSync(undefined)` is `false`);
then warn about a name that does not end in `.opus`. -/
def validateParams (cfg : Config) (host : Host) : Script Unit := do
  let errors := validationErrors cfg
  if errors.length > 0 then
    console Stream.error [JSValue.str "❌ Validation errors:"]
    consoleAll (errors.map fun e => ⟨Stream.error, [JSValue.str ("   - " ++ e)]⟩)
    console Stream.error [JSValue.str "\nRun with --help for usage information."]
    processExit 1
  match cfg.AUDIO_FILE with
  | none =>
      console Stream.error [JSValue.str "❌ Audio file not found: undefined"]
      processExit 1
  | some audioFile =>
      if !host.existsSync audioFile then
        console Stream.error [JSValue.str ("❌ Audio file not found: " ++ audioFile)]
        processExit 1
      if !(".opus".data.isSuffixOf audioFile.data) then
        console Stream.warn [JSValue.str "⚠️  Warning: Audio file should be in OPUS format"]

/-- The request `getTenantAccessToken` passes to `fetch`. -/
def tokenRequest (cfg : Config) : Request :=
  { url := "https://open.feishu.cn/open-apis/auth/v3/tenant_access_token/internal"
    method := "POST"
    headers := [("Content-Type", "application/json; charset=utf-8")]
    body := RequestBody.text (stringifyObject
      [("app_id", optValue cfg.APP_ID), ("app_secret", optValue cfg.APP_SECRET)]) }

/-- The function `getTenantAccessToken`. -/
def getTenantAccessToken (cfg : Config) (host : Host) : Script JSValue := do
  let data ← fetchJson host (tokenRequest cfg)
  let code ← liftExcept (data.getProp "code")
  if strictNeZero code then
    let msg ← liftExcept (data.getProp "msg")
    let msgText ← liftExcept msg.toJSString
    throwNew ("Failed to get token: " ++ msgText)
  console Stream.log [JSValue.str "✅ Got Tenant Access Token"]
  liftExcept (data.getProp "tenant_access_token")

/-- The request `uploadAudioFile` passes to `fetch`, for the text of the token
(what the template literal makes of it), the bytes and the base name of the
audio file. -/
def uploadRequest (cfg : Config) (token : String) (audioBuffer : List Nat)
    (fileName : String) : Request :=
  { url := "https://open.feishu.cn/open-apis/im/v1/files"
    method := "POST"
    headers := [("Authorization", "Bearer " ++ token)]
    body := RequestBody.form
      [("file_type", FormValue.text "opus"),
       ("file_name", FormValue.text fileName),
       ("duration", FormValue.text (numberToString cfg.DURATION_MS)),
       ("file", FormValue.file audioBuffer fileName)] }

/-- The function `uploadAudioFile`.  The template literal of the `Authorization`
header is evaluated, and may throw, before `fetch` is called. -/
def uploadAudioFile (cfg : Config) (host : Host) (token : JSValue) : Script JSValue := do
  let audioPath ← requirePath "path" cfg.AUDIO_FILE
  let audioBuffer ← liftExcept (host.readFileSync audioPath)
  let fileName := host.basename audioPath
  let tokenText ← liftExcept token.toJSString
  let data ← fetchJson host (uploadRequest cfg tokenText audioBuffer fileName)
  let code ← liftExcept (data.getProp "code")
  if strictNeZero code then
    throwNew ("Failed to upload audio: " ++ stringifyText data)
  let inner ← liftExcept (data.getProp "data")
  let fileKey ← liftExcept (inner.getProp "file_key")
  console Stream.log [JSValue.str "✅ Uploaded audio file, file_key:", fileKey]
  pure fileKey

/-- The `receiveIdType` of `sendAudioMessage`. -/
def receiveIdType (cfg : Config) : String :=
  if truthy cfg.USER_ID then "open_id" else "chat_id"

/-- The `receiveId` of `sendAudioMessage`. -/
def receiveId (cfg : Config) : Option String :=
  jsOr cfg.USER_ID cfg.CHAT_ID

/-- The request `sendAudioMessage` passes to `fetch`, for the text of the token
and the file key. -/
def sendRequest (cfg : Config) (token : String) (fileKey : JSValue) : Request :=
  { url := "https://open.feishu.cn/open-apis/im/v1/messages?receive_id_type=" ++
      receiveIdType cfg
    method := "POST"
    headers := [("Authorization", "Bearer " ++ token),
                ("Content-Type", "application/json; charset=utf-8")]
    body := RequestBody.text (stringifyObject
      [("receive_id", optValue (receiveId cfg)),
       ("msg_type", JSValue.str "audio"),
       ("content", JSValue.str (stringifyObject [("file_key", fileKey)]))]) }

/-- The function `sendAudioMessage`.  As in `uploadAudioFile`, the `Authorization`
template literal is evaluated before `fetch` is called. -/
def sendAudioMessage (cfg : Config) (host : Host) (token fileKey : JSValue) :
    Script JSValue := do
  let tokenText ← liftExcept token.toJSString
  let data ← fetchJson host (sendRequest cfg tokenText fileKey)
  let code ← liftExcept (data.getProp "code")
  if strictNeZero code then
    throwNew ("Failed to send message: " ++ stringifyText data)
  console Stream.log [JSValue.str "✅ Sent voice message!"]
  let inner ← liftExcept (data.getProp "data")
  let messageId ← liftExcept (inner.getProp "message_id")
  console Stream.log [JSValue.str "   Message ID:", messageId]
  pure inner

/-- The `try` block of `main`: the three network steps in sequence. -/
def tryBlock (cfg : Config) (host : Host) : Script Unit := do
  let token ← getTenantAccessToken cfg host
  let fileKey ← uploadAudioFile cfg host token
  let _ ← sendAudioMessage cfg host token fileKey
  console Stream.log [JSValue.str "\n🎉 Done!"]

/-- The `catch` block of `main`, given `error.message`. -/
def catchBlock (message : String) : Script Unit := do
  console Stream.error [JSValue.str "\n❌ Error:", JSValue.str message]
  processExit 1

/-- The function `main`. -/
def main (cfg : Config) (host : Host) : Script Unit := do
  validateParams cfg host
  console Stream.log [JSValue.str "🎤 Sending voice message to Feishu...\n"]
  let audioPath ← requirePath "paths[0]" cfg.AUDIO_FILE
  console Stream.log [JSValue.str ("📁 Audio file: " ++ host.resolve audioPath)]
  console Stream.log [JSValue.str ("⏱️  Duration: " ++ numberToString cfg.DURATION_MS ++ "ms")]
  console Stream.log [JSValue.str ("📬 Target: " ++
    (if truthy cfg.USER_ID then "User " ++ optToString cfg.USER_ID
     else "Chat " ++ optToString cfg.CHAT_ID) ++ "\n")]
  tryCatch (tryBlock cfg host) catchBlock

/-- The module body after `parseArgs`: the help branch, else the configuration
and `main()`. -/
def script (args : Args) (env : ProcessEnv) (host : Host) : Script Unit := do
  if args.help then
    console Stream.log [JSValue.str usageText]
    processExit 0
  main (resolveConfig args env) host

/-- What a run of the process shows from outside. -/
structure Outcome where
  exitCode : Nat
  console : List ConsoleCall
  requests : List Request

/-- The exit status a completion gives the process: the argument of
`process.exit`, `0` when the script runs to its end, and `1` for an error
nothing catches. -/
def outcome (result : Completion Unit × Trace) : Outcome :=
  match result with
  | (Completion.normal _, t) => ⟨0, t.console, t.requests⟩
  | (Completion.exit code, t) => ⟨code, t.console, t.requests⟩
  | (Completion.thrown _, t) => ⟨1, t.console, t.requests⟩

/-- One run of the script, from an empty trace. -/
def run (args : Args) (env : ProcessEnv) (host : Host) : Outcome :=
  outcome (script args env host ⟨[], []⟩)

/-! ## Reading JSON strings back -/

/-- Value of a hexadecimal digit, either case. -/
def hexValue (c : Char) : Option Nat :=
  let n := c.toNat
  if 48 ≤ n ∧ n ≤ 57 then some (n - 48)
  else if 97 ≤ n ∧ n ≤ 102 then some (n - 87)
  else if 65 ≤ n ∧ n ≤ 70 then some (n - 55)
  else none

/-- The character a JSON two-character escape stands for. -/
def unescapeChar (e : Char) : Option Char :=
  let n := e.toNat
  if n = 34 then some (Char.ofNat 34)
  else if n = 92 then some (Char.ofNat 92)
  else if n = 47 then some (Char.ofNat 47)
  else if e = 'b' then some (Char.ofNat 8)
  else if e = 'f' then some (Char.ofNat 12)
  else if e = 'n' then some (Char.ofNat 10)
  else if e = 'r' then some (Char.ofNat 13)
  else if e = 't' then some (Char.ofNat 9)
  else none

/-- Reading a JSON string literal (as `JSON.parse` does) from just after its
opening quote: the decoded characters up to the closing quote, and what follows
it.  Raw control characters are rejected; a `\uXXXX` escape of a surrogate half
has no counterpart among well-formed strings and is rejected too. -/
def parseStringBody : List Char → Option (List Char × List Char)
  | [] => none
  | c :: cs =>
      if c.toNat = 34 then some ([], cs)
      else if c.toNat = 92 then
        match cs with
        | [] => none
        | e :: rest =>
            if e = 'u' then
              match rest with
              | a :: b :: c2 :: d :: rest2 =>
                  match hexValue a, hexValue b, hexValue c2, hexValue d with
                  | some x, some y, some z, some w =>
                      let n := ((x * 16 + y) * 16 + z) * 16 + w
                      if 55296 ≤ n ∧ n ≤ 57343 then none
                      else (parseStringBody rest2).map fun r => (Char.ofNat n :: r.1, r.2)
                  | _, _, _, _ => none
              | _ => none
            else
              match unescapeChar e with
              | none => none
              | some ch => (parseStringBody rest).map fun r => (ch :: r.1, r.2)
      else if c.toNat < 32 then none
      else (parseStringBody cs).map fun r => (c :: r.1, r.2)

/-- Decoding the JSON text of an object with exactly one member whose value is a
string, written without white space (the form `JSON.stringify` produces): the
member name and the value. -/
def parseSingleMemberObject (text : String) : Option (String × String) :=
  match text.data with
  | open1 :: quote1 :: rest =>
      if open1.toNat = 123 ∧ quote1.toNat = 34 then
        match parseStringBody rest with
        | some (key, colon :: quote2 :: rest2) =>
            if colon.toNat = 58 ∧ quote2.toNat = 34 then
              match parseStringBody rest2 with
              | some (value, [close1]) =>
                  if close1.toNat = 125 then some (String.mk key, String.mk value) else none
              | _ => none
            else none
        | _ => none
      else none
  | _ => none

/-- Whether `QuoteJSONString` writes the character as an escape. -/
def needsEscape (c : Char) : Bool :=
  c.toNat < 32 || c.toNat == 34 || c.toNat == 92

/-! ## Notions the properties are stated with -/

/-- An option or variable that is absent or the empty string. -/
def absentOrEmpty : Option String → Bool
  | some s => s == ""
  | none => true

/-- A Number greater than zero: a positive integer or `+Infinity`. -/
def isPositiveNumber : JSNumber → Bool
  | JSNumber.int v => 0 < v
  | JSNumber.posInf => true
  | _ => false

/-- Which of the five required parameters an invocation lacks, in the order
application id, application secret, recipient, audio file, duration: the id and
the secret count as given by the flag or the environment variable, the
recipient by either of `--user-id` and `--chat-id`, and the duration is missing
or invalid when absent, empty, or not parsed to a number greater than zero. -/
def missingParameters (args : Args) (env : ProcessEnv) : List Bool :=
  [absentOrEmpty args.appId && absentOrEmpty env.FEISHU_APP_ID,
   absentOrEmpty args.appSecret && absentOrEmpty env.FEISHU_APP_SECRET,
   absentOrEmpty args.userId && absentOrEmpty args.chatId,
   absentOrEmpty args.audioFile,
   match args.duration with
   | none => true
   | some s => s == "" || !isPositiveNumber (parseInt s)]

/-- The five error messages, in the same order. -/
def requiredParameterMessages : List String :=
  ["Missing --app-id or FEISHU_APP_ID env",
   "Missing --app-secret or FEISHU_APP_SECRET env",
   "Missing --user-id or --chat-id",
   "Missing --audio-file",
   "Missing or invalid --duration"]

/-- The messages at the positions marked `true`, order kept. -/
def selectMessages : List Bool → List String → List String
  | true :: bs, m :: ms => m :: selectMessages bs ms
  | false :: bs, _ :: ms => selectMessages bs ms
  | _, _ => []

/-- What `validateParams` prints for a non-empty list of errors. -/
def validationReport (errors : List String) : List ConsoleCall :=
  ⟨Stream.error, [JSValue.str "❌ Validation errors:"]⟩ ::
    (errors.map fun e => ⟨Stream.error, [JSValue.str ("   - " ++ e)]⟩) ++
    [⟨Stream.error, [JSValue.str "\nRun with --help for usage information."]⟩]

/-- A configuration passes validation when `validateParams` returns instead of
exiting. -/
def validates (cfg : Config) (host : Host) : Bool :=
  match (validateParams cfg host ⟨[], []⟩).1 with
  | Completion.normal _ => true
  | _ => false

/-- The warning `validateParams` prints for a file name without the `.opus` ending. -/
def extensionWarning (p : String) : List ConsoleCall :=
  if ".opus".data.isSuffixOf p.data then []
  else [⟨Stream.warn, [JSValue.str "⚠️  Warning: Audio file should be in OPUS format"]⟩]

/-- The four lines `main` prints before the `try` block. -/
def banner (cfg : Config) (host : Host) (p : String) : List ConsoleCall :=
  [⟨Stream.log, [JSValue.str "🎤 Sending voice message to Feishu...\n"]⟩,
   ⟨Stream.log, [JSValue.str ("📁 Audio file: " ++ host.resolve p)]⟩,
   ⟨Stream.log, [JSValue.str ("⏱️  Duration: " ++ numberToString cfg.DURATION_MS ++ "ms")]⟩,
   ⟨Stream.log, [JSValue.str ("📬 Target: " ++
      (if truthy cfg.USER_ID then "User " ++ optToString cfg.USER_ID
       else "Chat " ++ optToString cfg.CHAT_ID) ++ "\n")]⟩]

/-- What the `catch` block of `main` prints. -/
def errorReport (message : String) : ConsoleCall :=
  ⟨Stream.error, [JSValue.str "\n❌ Error:", JSValue.str message]⟩

/-- A response body `{code, ...members}`. -/
def responseBody (code : Int) (members : List (String × JSValue)) : JSValue :=
  JSValue.obj (("code", JSValue.num (JSNumber.int code)) :: members)

/-! ## The end-to-end scenario of the specification -/

/-- The invocation of the scenario, with the given recipient flags and duration. -/
def scenarioArgs (userId chatId : Option String) (duration : String) : Args :=
  { appId := some "cli_test"
    appSecret := some "secret_test"
    userId := userId
    chatId := chatId
    audioFile := some "sample.opus"
    duration := some duration
    help := false }

/-- No environment variable set. -/
def scenarioEnv : ProcessEnv :=
  { FEISHU_APP_ID := none, FEISHU_APP_SECRET := none }

/-- A host on which `sample.opus` is the only file, and the three endpoints
answer with the given bodies. -/
def scenarioHost (tokenResponse uploadResponse sendResponse : JSValue) : Host :=
  { existsSync := fun p => p == "sample.opus"
    readFileSync := fun p =>
      if p == "sample.opus" then Except.ok [79, 103, 103, 83]
      else Except.error "ENOENT: no such file or directory"
    resolve := fun p => "/work/" ++ p
    basename := fun p => p
    fetch := fun req =>
      if req.url == "https://open.feishu.cn/open-apis/auth/v3/tenant_access_token/internal" then
        Except.ok tokenResponse
      else if req.url == "https://open.feishu.cn/open-apis/im/v1/files" then
        Except.ok uploadResponse
      else Except.ok sendResponse }

/-- The token response of the scenario. -/
def scenarioToken : JSValue :=
  responseBody 0 [("tenant_access_token", JSValue.str "t-1")]

/-- The upload response of the scenario. -/
def scenarioUpload : JSValue :=
  responseBody 0 [("data", JSValue.obj [("file_key", JSValue.str "f-1")])]

/-- The send response of the scenario. -/
def scenarioSend : JSValue :=
  responseBody 0 [("data", JSValue.obj [("message_id", JSValue.str "m-1")])]

/-! ## Lemmas on the script -/

@[simp] theorem Script.pure_apply {α : Type} (a : α) (t : Trace) :
    (pure a : Script α) t = (Completion.normal a, t) := rfl

@[simp] theorem Script.bind_apply {α β : Type} (x : Script α) (f : α → Script β) (t : Trace) :
    (x >>= f) t = Script.bind x f t := rfl

theorem truthy_eq_not_absentOrEmpty (o : Option String) : truthy o = !absentOrEmpty o := by
  cases o <;> simp [truthy, absentOrEmpty, bne]

theorem truthy_jsOr (a b : Option String) : truthy (jsOr a b) = (truthy a || truthy b) := by
  unfold jsOr
  cases h : truthy a <;> simp [h]

theorem truthy_iff (o : Option String) : truthy o = true ↔ ∃ s, o = some s ∧ s ≠ "" := by
  cases o <;> simp [truthy]

theorem durationCheck_eq (n : JSNumber) (h : ∀ text, n ≠ JSNumber.frac text) :
    (!n.truthy || n.leZero) = !isPositiveNumber n := by
  cases n with
  | int v =>
      by_cases hv : 0 < v
      · have h1 : v ≠ 0 := by omega
        have h2 : ¬ v ≤ 0 := by omega
        simp [JSNumber.truthy, JSNumber.leZero, isPositiveNumber, hv, h1, h2]
      · by_cases h0 : v = 0
        · simp [JSNumber.truthy, JSNumber.leZero, isPositiveNumber, h0]
        · have h2 : v ≤ 0 := by omega
          simp [JSNumber.truthy, JSNumber.leZero, isPositiveNumber, hv, h0, h2]
  | frac text => exact absurd rfl (h text)
  | _ => simp [JSNumber.truthy, JSNumber.leZero, isPositiveNumber]

theorem parseInt_ne_frac (s text : String) : parseInt s ≠ JSNumber.frac text := by
  unfold parseInt
  simp only
  split
  · simp
  · split <;> split <;> simp

theorem validateParams_errors (cfg : Config) (host : Host) (t : Trace)
    (h : validationErrors cfg ≠ []) :
    validateParams cfg host t =
      (Completion.exit 1,
       { t with console := t.console ++ validationReport (validationErrors cfg) }) := by
  have hlen : (validationErrors cfg).length > 0 := List.length_pos.mpr h
  simp [validateParams, hlen, Script.bind, console, consoleAll, processExit, validationReport]

theorem validationErrors_eq_nil_iff (cfg : Config) :
    validationErrors cfg = [] ↔
      truthy cfg.APP_ID = true ∧ truthy cfg.APP_SECRET = true ∧
      (truthy cfg.USER_ID = true ∨ truthy cfg.CHAT_ID = true) ∧ truthy cfg.AUDIO_FILE = true ∧
      (!cfg.DURATION_MS.truthy || cfg.DURATION_MS.leZero) = false := by
  unfold validationErrors
  cases truthy cfg.APP_ID <;> cases truthy cfg.APP_SECRET <;> cases truthy cfg.USER_ID <;>
    cases truthy cfg.CHAT_ID <;> cases truthy cfg.AUDIO_FILE <;>
    cases (!cfg.DURATION_MS.truthy || cfg.DURATION_MS.leZero) <;> simp

theorem validateParams_missing_file (cfg : Config) (host : Host) (t : Trace) (p : String)
    (h : validationErrors cfg = []) (hp : cfg.AUDIO_FILE = some p)
    (hfile : host.existsSync p = false) :
    validateParams cfg host t =
      (Completion.exit 1,
       { t with console := t.console ++
          [⟨Stream.error, [JSValue.str ("❌ Audio file not found: " ++ p)]⟩] }) := by
  simp [validateParams, h, hp, hfile, Script.bind, console, processExit]

theorem validateParams_ok (cfg : Config) (host : Host) (t : Trace) (p : String)
    (h : validationErrors cfg = []) (hp : cfg.AUDIO_FILE = some p)
    (hfile : host.existsSync p = true) :
    validateParams cfg host t =
      (Completion.normal (), { t with console := t.console ++ extensionWarning p }) := by
  unfold extensionWarning
  by_cases hs : ".opus".data.isSuffixOf p.data = true
  · simp [validateParams, h, hp, hfile, Script.bind, console, processExit, hs]
  · simp [validateParams, h, hp, hfile, Script.bind, console, processExit, hs]

theorem validates_iff (cfg : Config) (host : Host) :
    validates cfg host = true ↔
      validationErrors cfg = [] ∧ ∃ p, cfg.AUDIO_FILE = some p ∧ host.existsSync p = true := by
  unfold validates
  by_cases h : validationErrors cfg = []
  · have haudio := ((validationErrors_eq_nil_iff cfg).mp h).2.2.2.1
    obtain ⟨p, hp, -⟩ := (truthy_iff _).mp haudio
    cases hfile : host.existsSync p
    · rw [validateParams_missing_file cfg host _ p h hp hfile]
      simp [h, hp, hfile]
    · rw [validateParams_ok cfg host _ p h hp hfile]
      simp [h, hp, hfile]
  · rw [validateParams_errors cfg host _ h]
    simp [h]

theorem orDefault_zero (d : Option String) :
    parseInt (orDefault d "0") =
      match d with
      | none => JSNumber.int 0
      | some s => if s = "" then JSNumber.int 0 else parseInt s := by
  have h0 : parseInt "0" = JSNumber.int 0 := by decide
  cases d with
  | none => simp [orDefault, h0]
  | some s =>
      by_cases hs : s = ""
      · simp [orDefault, hs, h0]
      · simp [orDefault, hs]

theorem selectMessages_of_checks (a b c d e : Bool) :
    (if (!a) = true then ["Missing --app-id or FEISHU_APP_ID env"] else []) ++
      (if (!b) = true then ["Missing --app-secret or FEISHU_APP_SECRET env"] else []) ++
      (if c = true then ["Missing --user-id or --chat-id"] else []) ++
      (if (!d) = true then ["Missing --audio-file"] else []) ++
      (if e = true then ["Missing or invalid --duration"] else []) =
    selectMessages [!a, !b, c, !d, e] requiredParameterMessages := by
  cases a <;> cases b <;> cases c <;> cases d <;> cases e <;> rfl

theorem durationCheck_of_flag (d : Option String) :
    (!(parseInt (orDefault d "0")).truthy || (parseInt (orDefault d "0")).leZero) =
      (match d with
       | none => true
       | some s => s == "" || !isPositiveNumber (parseInt s)) := by
  rw [orDefault_zero]
  cases d with
  | none => simp [JSNumber.truthy, JSNumber.leZero]
  | some s =>
      by_cases hs : s = ""
      · simp [hs, JSNumber.truthy, JSNumber.leZero]
      · simp only [hs, if_false]
        rw [durationCheck_eq _ (parseInt_ne_frac s)]
        simp [hs]

theorem validationErrors_eq_select (args : Args) (env : ProcessEnv) :
    validationErrors (resolveConfig args env) =
      selectMessages (missingParameters args env) requiredParameterMessages := by
  have h1 : (!truthy (jsOr args.appId env.FEISHU_APP_ID)) =
      (absentOrEmpty args.appId && absentOrEmpty env.FEISHU_APP_ID) := by
    rw [truthy_jsOr, truthy_eq_not_absentOrEmpty, truthy_eq_not_absentOrEmpty]
    cases absentOrEmpty args.appId <;> cases absentOrEmpty env.FEISHU_APP_ID <;> rfl
  have h2 : (!truthy (jsOr args.appSecret env.FEISHU_APP_SECRET)) =
      (absentOrEmpty args.appSecret && absentOrEmpty env.FEISHU_APP_SECRET) := by
    rw [truthy_jsOr, truthy_eq_not_absentOrEmpty, truthy_eq_not_absentOrEmpty]
    cases absentOrEmpty args.appSecret <;> cases absentOrEmpty env.FEISHU_APP_SECRET <;> rfl
  have h3 : (!truthy args.userId && !truthy args.chatId) =
      (absentOrEmpty args.userId && absentOrEmpty args.chatId) := by
    rw [truthy_eq_not_absentOrEmpty, truthy_eq_not_absentOrEmpty]
    cases absentOrEmpty args.userId <;> cases absentOrEmpty args.chatId <;> rfl
  have h4 : (!truthy args.audioFile) = absentOrEmpty args.audioFile := by
    rw [truthy_eq_not_absentOrEmpty]
    cases absentOrEmpty args.audioFile <;> rfl
  have hsel := selectMessages_of_checks (truthy (jsOr args.appId env.FEISHU_APP_ID))
    (truthy (jsOr args.appSecret env.FEISHU_APP_SECRET))
    (!truthy args.userId && !truthy args.chatId) (truthy args.audioFile)
    (!(parseInt (orDefault args.duration "0")).truthy ||
      (parseInt (orDefault args.duration "0")).leZero)
  have hlist : [!truthy (jsOr args.appId env.FEISHU_APP_ID),
      !truthy (jsOr args.appSecret env.FEISHU_APP_SECRET),
      !truthy args.userId && !truthy args.chatId, !truthy args.audioFile,
      !(parseInt (orDefault args.duration "0")).truthy ||
        (parseInt (orDefault args.duration "0")).leZero] = missingParameters args env := by
    rw [h1, h2, h3, h4]
    exact congrArg
      (fun e => [absentOrEmpty args.appId && absentOrEmpty env.FEISHU_APP_ID,
        absentOrEmpty args.appSecret && absentOrEmpty env.FEISHU_APP_SECRET,
        absentOrEmpty args.userId && absentOrEmpty args.chatId,
        absentOrEmpty args.audioFile, e])
      (durationCheck_of_flag args.duration)
  exact hsel.trans (congrArg (fun l => selectMessages l requiredParameterMessages) hlist)

theorem selectMessages_length (bs : List Bool) (ms : List String) (h : bs.length = ms.length) :
    (selectMessages bs ms).length = bs.count true := by
  induction bs generalizing ms with
  | nil => cases ms <;> simp [selectMessages]
  | cons b bs ih =>
      cases ms with
      | nil => simp at h
      | cons m ms =>
          have h1 : bs.length = ms.length := by simpa using h
          cases b <;> simp [selectMessages, ih ms h1]

theorem main_of_exit (cfg : Config) (host : Host) (t t1 : Trace) (code : Nat)
    (h : validateParams cfg host t = (Completion.exit code, t1)) :
    main cfg host t = (Completion.exit code, t1) := by
  simp [main, Script.bind, h]

theorem main_of_valid (cfg : Config) (host : Host) (t : Trace) (p : String)
    (h : validationErrors cfg = []) (hp : cfg.AUDIO_FILE = some p)
    (hfile : host.existsSync p = true) :
    main cfg host t =
      tryCatch (tryBlock cfg host) catchBlock
        { t with console := t.console ++ extensionWarning p ++ banner cfg host p } := by
  unfold main
  simp only [Script.bind_apply, Script.bind, validateParams_ok cfg host t p h hp hfile, hp]
  simp only [console, requirePath, Script.pure_apply, banner, List.append_assoc, List.cons_append,
    List.nil_append]

theorem script_of_not_help (args : Args) (env : ProcessEnv) (host : Host) (t : Trace)
    (h : args.help = false) : script args env host t = main (resolveConfig args env) host t := by
  unfold script
  rw [h]
  rfl

theorem getProp_defined (v : JSValue) (a b : String) (x : JSValue)
    (h : v.getProp a = Except.ok x) : ∃ y, v.getProp b = Except.ok y := by
  cases v <;> simp [JSValue.getProp] at h ⊢

theorem getTenantAccessToken_ok (cfg : Config) (host : Host) (t : Trace)
    (data code token : JSValue)
    (hf : host.fetch (tokenRequest cfg) = Except.ok data)
    (hc : data.getProp "code" = Except.ok code) (h0 : strictNeZero code = false)
    (ht : data.getProp "tenant_access_token" = Except.ok token) :
    getTenantAccessToken cfg host t =
      (Completion.normal token,
       { console := t.console ++ [⟨Stream.log, [JSValue.str "✅ Got Tenant Access Token"]⟩],
         requests := t.requests ++ [tokenRequest cfg] }) := by
  unfold getTenantAccessToken
  simp only [Script.bind_apply, Script.bind, fetchJson, hf, hc, ht, liftExcept, h0,
    Script.pure_apply, console, Bool.false_eq_true, if_false]

theorem getTenantAccessToken_fail (cfg : Config) (host : Host) (t : Trace)
    (data code : JSValue)
    (hf : host.fetch (tokenRequest cfg) = Except.ok data)
    (hc : data.getProp "code" = Except.ok code) (h0 : strictNeZero code = true) :
    ∃ message, getTenantAccessToken cfg host t =
      (Completion.thrown message, { t with requests := t.requests ++ [tokenRequest cfg] }) := by
  obtain ⟨msg, hm⟩ := getProp_defined data "code" "msg" code hc
  unfold getTenantAccessToken
  cases hmt : msg.toJSString with
  | ok msgText =>
      refine ⟨"Failed to get token: " ++ msgText, ?_⟩
      simp only [Script.bind_apply, Script.bind, fetchJson, hf, hc, hm, hmt, liftExcept, h0,
        Script.pure_apply, throwNew, if_true]
  | error message =>
      refine ⟨message, ?_⟩
      simp only [Script.bind_apply, Script.bind, fetchJson, hf, hc, hm, hmt, liftExcept, h0,
        Script.pure_apply, throwNew, if_true]

theorem uploadAudioFile_ok (cfg : Config) (host : Host) (t : Trace) (p tokenText : String)
    (token data code inner fileKey : JSValue) (audioBuffer : List Nat)
    (hp : cfg.AUDIO_FILE = some p)
    (hr : host.readFileSync p = Except.ok audioBuffer)
    (htext : token.toJSString = Except.ok tokenText)
    (hf : host.fetch (uploadRequest cfg tokenText audioBuffer (host.basename p)) =
      Except.ok data)
    (hc : data.getProp "code" = Except.ok code) (h0 : strictNeZero code = false)
    (hd : data.getProp "data" = Except.ok inner)
    (hk : inner.getProp "file_key" = Except.ok fileKey) :
    uploadAudioFile cfg host token t =
      (Completion.normal fileKey,
       { console := t.console ++
           [⟨Stream.log, [JSValue.str "✅ Uploaded audio file, file_key:", fileKey]⟩],
         requests := t.requests ++
           [uploadRequest cfg tokenText audioBuffer (host.basename p)] }) := by
  unfold uploadAudioFile
  simp only [Script.bind_apply, Script.bind, fetchJson, hp, hr, htext, hf, hc, hd, hk, liftExcept,
    h0, Script.pure_apply, console, requirePath, Bool.false_eq_true, if_false]

theorem sendAudioMessage_ok (cfg : Config) (host : Host) (t : Trace) (tokenText : String)
    (token fileKey data code inner messageId : JSValue)
    (htext : token.toJSString = Except.ok tokenText)
    (hf : host.fetch (sendRequest cfg tokenText fileKey) = Except.ok data)
    (hc : data.getProp "code" = Except.ok code) (h0 : strictNeZero code = false)
    (hd : data.getProp "data" = Except.ok inner)
    (hk : inner.getProp "message_id" = Except.ok messageId) :
    sendAudioMessage cfg host token fileKey t =
      (Completion.normal inner,
       { console := t.console ++
           [⟨Stream.log, [JSValue.str "✅ Sent voice message!"]⟩,
            ⟨Stream.log, [JSValue.str "   Message ID:", messageId]⟩],
         requests := t.requests ++ [sendRequest cfg tokenText fileKey] }) := by
  unfold sendAudioMessage
  simp only [Script.bind_apply, Script.bind, fetchJson, htext, hf, hc, hd, hk, liftExcept, h0,
    Script.pure_apply, console, Bool.false_eq_true, if_false, List.append_assoc,
    List.cons_append, List.nil_append]

theorem sendAudioMessage_fail (cfg : Config) (host : Host) (t : Trace) (tokenText : String)
    (token fileKey data code : JSValue)
    (htext : token.toJSString = Except.ok tokenText)
    (hf : host.fetch (sendRequest cfg tokenText fileKey) = Except.ok data)
    (hc : data.getProp "code" = Except.ok code) (h0 : strictNeZero code = true) :
    sendAudioMessage cfg host token fileKey t =
      (Completion.thrown ("Failed to send message: " ++ stringifyText data),
       { t with requests := t.requests ++ [sendRequest cfg tokenText fileKey] }) := by
  unfold sendAudioMessage
  simp only [Script.bind_apply, Script.bind, fetchJson, htext, hf, hc, liftExcept, h0,
    Script.pure_apply, throwNew, if_true]

theorem run_of_not_help (args : Args) (env : ProcessEnv) (host : Host) (h : args.help = false) :
    run args env host = outcome (main (resolveConfig args env) host ⟨[], []⟩) := by
  unfold run
  rw [script_of_not_help args env host _ h]

theorem run_of_help (args : Args) (env : ProcessEnv) (host : Host) (h : args.help = true) :
    run args env host = ⟨0, [⟨Stream.log, [JSValue.str usageText]⟩], []⟩ := by
  unfold run script
  rw [h]
  rfl

theorem tryCatch_of_thrown (body : Script Unit) (t t1 : Trace) (message : String)
    (h : body t = (Completion.thrown message, t1)) :
    tryCatch body catchBlock t =
      (Completion.exit 1, { t1 with console := t1.console ++ [errorReport message] }) := by
  unfold tryCatch
  rw [h]
  rfl

theorem tryCatch_of_normal (body : Script Unit) (t t1 : Trace)
    (h : body t = (Completion.normal (), t1)) :
    tryCatch body catchBlock t = (Completion.normal (), t1) := by
  unfold tryCatch
  rw [h]

theorem run_of_valid (args : Args) (env : ProcessEnv) (host : Host) (p : String)
    (hhelp : args.help = false) (hvalid : validates (resolveConfig args env) host = true)
    (hp : args.audioFile = some p) :
    run args env host =
      outcome (tryCatch (tryBlock (resolveConfig args env) host) catchBlock
          ⟨extensionWarning p ++ banner (resolveConfig args env) host p, []⟩) := by
  obtain ⟨herr, q, hq, hfile⟩ := (validates_iff _ _).mp hvalid
  have hpq : q = p := by
    have : (resolveConfig args env).AUDIO_FILE = some p := hp
    rw [hq] at this
    exact Option.some.inj this
  subst hpq
  rw [run_of_not_help args env host hhelp, main_of_valid _ host _ q herr hq hfile]
  rfl

theorem tryBlock_of_token_thrown (cfg : Config) (host : Host) (t t1 : Trace) (message : String)
    (h : getTenantAccessToken cfg host t = (Completion.thrown message, t1)) :
    tryBlock cfg host t = (Completion.thrown message, t1) := by
  unfold tryBlock
  simp only [Script.bind_apply, Script.bind, h]

theorem tryBlock_of_send_normal (cfg : Config) (host : Host) (t t1 t2 t3 : Trace)
    (token fileKey inner : JSValue)
    (h1 : getTenantAccessToken cfg host t = (Completion.normal token, t1))
    (h2 : uploadAudioFile cfg host token t1 = (Completion.normal fileKey, t2))
    (h3 : sendAudioMessage cfg host token fileKey t2 = (Completion.normal inner, t3)) :
    tryBlock cfg host t =
      (Completion.normal (),
       { t3 with console := t3.console ++ [⟨Stream.log, [JSValue.str "\n🎉 Done!"]⟩] }) := by
  unfold tryBlock
  simp only [Script.bind_apply, Script.bind, h1, h2, h3]
  rfl

theorem tryBlock_of_send_thrown (cfg : Config) (host : Host) (t t1 t2 t3 : Trace)
    (token fileKey : JSValue) (message : String)
    (h1 : getTenantAccessToken cfg host t = (Completion.normal token, t1))
    (h2 : uploadAudioFile cfg host token t1 = (Completion.normal fileKey, t2))
    (h3 : sendAudioMessage cfg host token fileKey t2 = (Completion.thrown message, t3)) :
    tryBlock cfg host t = (Completion.thrown message, t3) := by
  unfold tryBlock
  simp only [Script.bind_apply, Script.bind, h1, h2, h3]

theorem sendAudioMessage_cases (cfg : Config) (host : Host) (t : Trace) (tokenText : String)
    (token fileKey : JSValue) (htext : token.toJSString = Except.ok tokenText) :
    ∃ c, (∃ inner, sendAudioMessage cfg host token fileKey t =
            (Completion.normal inner, ⟨c, t.requests ++ [sendRequest cfg tokenText fileKey]⟩)) ∨
         (∃ message, sendAudioMessage cfg host token fileKey t =
            (Completion.thrown message,
             ⟨c, t.requests ++ [sendRequest cfg tokenText fileKey]⟩)) := by
  unfold sendAudioMessage
  simp only [Script.bind_apply, Script.bind, fetchJson, htext, liftExcept, Script.pure_apply]
  cases host.fetch (sendRequest cfg tokenText fileKey) with
  | error m => exact ⟨_, Or.inr ⟨m, rfl⟩⟩
  | ok data =>
      simp only [liftExcept]
      cases data.getProp "code" with
      | error m => exact ⟨_, Or.inr ⟨m, rfl⟩⟩
      | ok code =>
          simp only [Script.pure_apply]
          cases strictNeZero code with
          | true => exact ⟨_, Or.inr ⟨_, rfl⟩⟩
          | false =>
              simp only [Bool.false_eq_true, if_false, Script.pure_apply, console]
              cases data.getProp "data" with
              | error m => exact ⟨_, Or.inr ⟨m, rfl⟩⟩
              | ok inner =>
                  simp only [Script.pure_apply, Script.bind_apply, Script.bind]
                  cases inner.getProp "message_id" with
                  | error m => exact ⟨_, Or.inr ⟨m, rfl⟩⟩
                  | ok messageId => exact ⟨_, Or.inl ⟨inner, rfl⟩⟩

/-- The run through a successful token step and a successful upload step: the
three requests, whatever the send endpoint answers. -/
theorem requests_of_upload (args : Args) (env : ProcessEnv) (host : Host)
    (p tokenText : String)
    (tokenData token uploadData inner fileKey : JSValue) (audioBuffer : List Nat)
    (hhelp : args.help = false) (hvalid : validates (resolveConfig args env) host = true)
    (hp : args.audioFile = some p) (hread : host.readFileSync p = Except.ok audioBuffer)
    (htoken : host.fetch (tokenRequest (resolveConfig args env)) = Except.ok tokenData)
    (htokenCode : tokenData.getProp "code" = Except.ok (JSValue.num (JSNumber.int 0)))
    (htokenValue : tokenData.getProp "tenant_access_token" = Except.ok token)
    (htext : token.toJSString = Except.ok tokenText)
    (hupload : host.fetch (uploadRequest (resolveConfig args env) tokenText audioBuffer
      (host.basename p)) = Except.ok uploadData)
    (huploadCode : uploadData.getProp "code" = Except.ok (JSValue.num (JSNumber.int 0)))
    (huploadData : uploadData.getProp "data" = Except.ok inner)
    (hkey : inner.getProp "file_key" = Except.ok fileKey) :
    (run args env host).requests =
      [tokenRequest (resolveConfig args env),
       uploadRequest (resolveConfig args env) tokenText audioBuffer (host.basename p),
       sendRequest (resolveConfig args env) tokenText fileKey] := by
  have h1 := getTenantAccessToken_ok (resolveConfig args env) host
    ⟨extensionWarning p ++ banner (resolveConfig args env) host p, []⟩ tokenData _ token
    htoken htokenCode rfl htokenValue
  have h2 := fun t => uploadAudioFile_ok (resolveConfig args env) host t p tokenText token
    uploadData _ inner fileKey audioBuffer hp hread htext hupload huploadCode rfl huploadData hkey
  rw [run_of_valid args env host p hhelp hvalid hp]
  obtain ⟨c, hsend | hsend⟩ := sendAudioMessage_cases (resolveConfig args env) host _ tokenText
    token fileKey htext
  · obtain ⟨r, hr⟩ := hsend
    rw [tryCatch_of_normal _ _ _ (tryBlock_of_send_normal _ host _ _ _ _ token fileKey r h1 (h2 _) hr)]
    rfl
  · obtain ⟨message, hm⟩ := hsend
    rw [tryCatch_of_thrown _ _ _ message
      (tryBlock_of_send_thrown _ host _ _ _ _ token fileKey message h1 (h2 _) hm)]
    rfl

/-- The whole run when the three steps succeed. -/
theorem run_of_send_ok (args : Args) (env : ProcessEnv) (host : Host)
    (p tokenText : String)
    (tokenData token uploadData inner fileKey sendData sendInner messageId : JSValue)
    (audioBuffer : List Nat)
    (hhelp : args.help = false) (hvalid : validates (resolveConfig args env) host = true)
    (hp : args.audioFile = some p) (hread : host.readFileSync p = Except.ok audioBuffer)
    (htoken : host.fetch (tokenRequest (resolveConfig args env)) = Except.ok tokenData)
    (htokenCode : tokenData.getProp "code" = Except.ok (JSValue.num (JSNumber.int 0)))
    (htokenValue : tokenData.getProp "tenant_access_token" = Except.ok token)
    (htext : token.toJSString = Except.ok tokenText)
    (hupload : host.fetch (uploadRequest (resolveConfig args env) tokenText audioBuffer
      (host.basename p)) = Except.ok uploadData)
    (huploadCode : uploadData.getProp "code" = Except.ok (JSValue.num (JSNumber.int 0)))
    (huploadData : uploadData.getProp "data" = Except.ok inner)
    (hkey : inner.getProp "file_key" = Except.ok fileKey)
    (hsend : host.fetch (sendRequest (resolveConfig args env) tokenText fileKey) = Except.ok sendData)
    (hsendCode : sendData.getProp "code" = Except.ok (JSValue.num (JSNumber.int 0)))
    (hsendData : sendData.getProp "data" = Except.ok sendInner)
    (hid : sendInner.getProp "message_id" = Except.ok messageId) :
    run args env host =
      ⟨0,
       extensionWarning p ++ banner (resolveConfig args env) host p ++
         [⟨Stream.log, [JSValue.str "✅ Got Tenant Access Token"]⟩,
          ⟨Stream.log, [JSValue.str "✅ Uploaded audio file, file_key:", fileKey]⟩,
          ⟨Stream.log, [JSValue.str "✅ Sent voice message!"]⟩,
          ⟨Stream.log, [JSValue.str "   Message ID:", messageId]⟩,
          ⟨Stream.log, [JSValue.str "\n🎉 Done!"]⟩],
       [tokenRequest (resolveConfig args env),
        uploadRequest (resolveConfig args env) tokenText audioBuffer (host.basename p),
        sendRequest (resolveConfig args env) tokenText fileKey]⟩ := by
  have h1 := getTenantAccessToken_ok (resolveConfig args env) host
    ⟨extensionWarning p ++ banner (resolveConfig args env) host p, []⟩ tokenData _ token
    htoken htokenCode rfl htokenValue
  have h2 := fun t => uploadAudioFile_ok (resolveConfig args env) host t p tokenText token
    uploadData _ inner fileKey audioBuffer hp hread htext hupload huploadCode rfl huploadData hkey
  have h3 := fun t => sendAudioMessage_ok (resolveConfig args env) host t tokenText token fileKey
    sendData _ sendInner messageId htext hsend hsendCode rfl hsendData hid
  rw [run_of_valid args env host p hhelp hvalid hp,
    tryCatch_of_normal _ _ _
      (tryBlock_of_send_normal _ host _ _ _ _ token fileKey sendInner h1 (h2 _) (h3 _))]
  simp only [outcome, List.append_assoc, List.cons_append, List.nil_append]

/-- The whole run when the token and upload steps succeed and the send response
has a `code` other than `0`. -/
theorem run_of_send_fail (args : Args) (env : ProcessEnv) (host : Host)
    (p tokenText : String)
    (tokenData token uploadData inner fileKey sendData code : JSValue)
    (audioBuffer : List Nat)
    (hhelp : args.help = false) (hvalid : validates (resolveConfig args env) host = true)
    (hp : args.audioFile = some p) (hread : host.readFileSync p = Except.ok audioBuffer)
    (htoken : host.fetch (tokenRequest (resolveConfig args env)) = Except.ok tokenData)
    (htokenCode : tokenData.getProp "code" = Except.ok (JSValue.num (JSNumber.int 0)))
    (htokenValue : tokenData.getProp "tenant_access_token" = Except.ok token)
    (htext : token.toJSString = Except.ok tokenText)
    (hupload : host.fetch (uploadRequest (resolveConfig args env) tokenText audioBuffer
      (host.basename p)) = Except.ok uploadData)
    (huploadCode : uploadData.getProp "code" = Except.ok (JSValue.num (JSNumber.int 0)))
    (huploadData : uploadData.getProp "data" = Except.ok inner)
    (hkey : inner.getProp "file_key" = Except.ok fileKey)
    (hsend : host.fetch (sendRequest (resolveConfig args env) tokenText fileKey) = Except.ok sendData)
    (hsendCode : sendData.getProp "code" = Except.ok code)
    (hne : strictNeZero code = true) :
    run args env host =
      ⟨1,
       extensionWarning p ++ banner (resolveConfig args env) host p ++
         [⟨Stream.log, [JSValue.str "✅ Got Tenant Access Token"]⟩,
          ⟨Stream.log, [JSValue.str "✅ Uploaded audio file, file_key:", fileKey]⟩,
          errorReport ("Failed to send message: " ++ stringifyText sendData)],
       [tokenRequest (resolveConfig args env),
        uploadRequest (resolveConfig args env) tokenText audioBuffer (host.basename p),
        sendRequest (resolveConfig args env) tokenText fileKey]⟩ := by
  have h1 := getTenantAccessToken_ok (resolveConfig args env) host
    ⟨extensionWarning p ++ banner (resolveConfig args env) host p, []⟩ tokenData _ token
    htoken htokenCode rfl htokenValue
  have h2 := fun t => uploadAudioFile_ok (resolveConfig args env) host t p tokenText token
    uploadData _ inner fileKey audioBuffer hp hread htext hupload huploadCode rfl huploadData hkey
  have h3 := fun t => sendAudioMessage_fail (resolveConfig args env) host t tokenText token fileKey
    sendData code htext hsend hsendCode hne
  rw [run_of_valid args env host p hhelp hvalid hp,
    tryCatch_of_thrown _ _ _ _
      (tryBlock_of_send_thrown _ host _ _ _ _ token fileKey _ h1 (h2 _) (h3 _))]
  simp only [outcome, List.append_assoc, List.cons_append, List.nil_append]

/-- The run when the token step succeeds but the token has no text (`ToString`
throws, as for a token object with an own `toString` member): the template
literal of the `Authorization` header throws before the upload `fetch`, so the
token request stays the only one and the exit status is 1. -/
theorem run_of_token_without_text (args : Args) (env : ProcessEnv) (host : Host) (p : String)
    (message : String) (tokenData token : JSValue) (audioBuffer : List Nat)
    (hhelp : args.help = false) (hvalid : validates (resolveConfig args env) host = true)
    (hp : args.audioFile = some p) (hread : host.readFileSync p = Except.ok audioBuffer)
    (htoken : host.fetch (tokenRequest (resolveConfig args env)) = Except.ok tokenData)
    (htokenCode : tokenData.getProp "code" = Except.ok (JSValue.num (JSNumber.int 0)))
    (htokenValue : tokenData.getProp "tenant_access_token" = Except.ok token)
    (htext : token.toJSString = Except.error message) :
    run args env host =
      ⟨1,
       extensionWarning p ++ banner (resolveConfig args env) host p ++
         [⟨Stream.log, [JSValue.str "✅ Got Tenant Access Token"]⟩, errorReport message],
       [tokenRequest (resolveConfig args env)]⟩ := by
  have h1 := getTenantAccessToken_ok (resolveConfig args env) host
    ⟨extensionWarning p ++ banner (resolveConfig args env) host p, []⟩ tokenData _ token
    htoken htokenCode rfl htokenValue
  have hcfg : (resolveConfig args env).AUDIO_FILE = some p := hp
  have h2 : ∀ t, uploadAudioFile (resolveConfig args env) host token t =
      (Completion.thrown message, t) := by
    intro t
    unfold uploadAudioFile
    simp only [Script.bind_apply, Script.bind, hcfg, hread, htext, liftExcept, requirePath,
      Script.pure_apply, throwNew]
  have h3 : tryBlock (resolveConfig args env) host
      ⟨extensionWarning p ++ banner (resolveConfig args env) host p, []⟩ =
      (Completion.thrown message,
       ⟨extensionWarning p ++ banner (resolveConfig args env) host p ++
          [⟨Stream.log, [JSValue.str "✅ Got Tenant Access Token"]⟩],
        [] ++ [tokenRequest (resolveConfig args env)]⟩) := by
    unfold tryBlock
    simp only [Script.bind_apply, Script.bind, h1, h2]
  rw [run_of_valid args env host p hhelp hvalid hp, tryCatch_of_thrown _ _ _ message h3]
  simp only [outcome, List.append_assoc, List.cons_append, List.nil_append]

theorem duration_message_mem_select (b1 b2 b3 b4 b5 : Bool) :
    "Missing or invalid --duration" ∈
        selectMessages [b1, b2, b3, b4, b5] requiredParameterMessages ↔ b5 = true := by
  cases b1 <;> cases b2 <;> cases b3 <;> cases b4 <;> cases b5 <;> decide

theorem natNumberToString_of_lt (n : Nat) (h : n < 2 ^ 53) : natNumberToString n = Nat.repr n := by
  unfold natNumberToString
  rw [if_pos h]

/-! ## JSON strings: writing and reading back -/

theorem hexValue_hexDigit (d : Nat) (h : d < 16) : hexValue (hexDigit d) = some d := by
  interval_cases d <;> decide

theorem char_eq_of_toNat (c : Char) (n : Nat) (h : c.toNat = n) : c = Char.ofNat n := by
  rw [← h, Char.ofNat_toNat]

theorem parseStringBody_quote (rest : List Char) :
    parseStringBody (Char.ofNat 34 :: rest) = some ([], rest) := by
  have h : (Char.ofNat 34).toNat = 34 := by decide
  rw [parseStringBody.eq_def]
  simp only [h, if_true]

theorem parseStringBody_short_escape (e ch : Char) (rest : List Char) (he : e ≠ 'u')
    (h : unescapeChar e = some ch) :
    parseStringBody (Char.ofNat 92 :: e :: rest) =
      (parseStringBody rest).map fun r => (ch :: r.1, r.2) := by
  have h1 : ¬ (92 : Nat) = 34 := by decide
  have h2 : (Char.ofNat 92).toNat = 92 := by decide
  rw [parseStringBody.eq_def]
  simp only [h1, h2, if_true, he, if_false, h]

theorem parseStringBody_control_escape (n : Nat) (rest : List Char) (hn : n < 32) :
    parseStringBody (Char.ofNat 92 :: 'u' :: '0' :: '0' :: hexDigit (n / 16) ::
        hexDigit (n % 16) :: rest) =
      (parseStringBody rest).map fun r => (Char.ofNat n :: r.1, r.2) := by
  have h1 : ¬ (92 : Nat) = 34 := by decide
  have h2 : (Char.ofNat 92).toNat = 92 := by decide
  have hx : hexValue (hexDigit (n / 16)) = some (n / 16) := hexValue_hexDigit _ (by omega)
  have hy : hexValue (hexDigit (n % 16)) = some (n % 16) := hexValue_hexDigit _ (by omega)
  have h0 : hexValue '0' = some 0 := by decide
  have hv : ((0 * 16 + 0) * 16 + n / 16) * 16 + n % 16 = n := by omega
  have hlow : ¬ (55296 ≤ n ∧ n ≤ 57343) := by omega
  rw [parseStringBody.eq_def]
  simp only [h1, h2, if_true, h0, hx, hy, hv, hlow, if_false]

theorem parseStringBody_plain (c : Char) (rest : List Char) (h34 : ¬ c.toNat = 34)
    (h92 : ¬ c.toNat = 92) (h32 : ¬ c.toNat < 32) :
    parseStringBody (c :: rest) = (parseStringBody rest).map fun r => (c :: r.1, r.2) := by
  rw [parseStringBody.eq_def]
  simp only [h34, h92, h32, if_false]

theorem parseStringBody_jsonEscape (k rest : List Char) :
    parseStringBody (jsonEscape k ++ Char.ofNat 34 :: rest) = some (k, rest) := by
  induction k with
  | nil => exact parseStringBody_quote rest
  | cons c cs ih =>
      simp only [jsonEscape, jsonEscapeChar]
      split_ifs with h8 h9 h10 h12 h13 h34 h92 h32 <;>
        simp only [List.cons_append, List.nil_append]
      · rw [char_eq_of_toNat c 8 h8,
          parseStringBody_short_escape 'b' (Char.ofNat 8) _ (by decide) (by decide), ih]
        rfl
      · rw [char_eq_of_toNat c 9 h9,
          parseStringBody_short_escape 't' (Char.ofNat 9) _ (by decide) (by decide), ih]
        rfl
      · rw [char_eq_of_toNat c 10 h10,
          parseStringBody_short_escape 'n' (Char.ofNat 10) _ (by decide) (by decide), ih]
        rfl
      · rw [char_eq_of_toNat c 12 h12,
          parseStringBody_short_escape 'f' (Char.ofNat 12) _ (by decide) (by decide), ih]
        rfl
      · rw [char_eq_of_toNat c 13 h13,
          parseStringBody_short_escape 'r' (Char.ofNat 13) _ (by decide) (by decide), ih]
        rfl
      · rw [char_eq_of_toNat c 34 h34,
          parseStringBody_short_escape (Char.ofNat 34) (Char.ofNat 34) _ (by decide) (by decide),
          ih]
        rfl
      · rw [char_eq_of_toNat c 92 h92,
          parseStringBody_short_escape (Char.ofNat 92) (Char.ofNat 92) _ (by decide) (by decide),
          ih]
        rfl
      · rw [parseStringBody_control_escape c.toNat _ h32, ih, Char.ofNat_toNat]
        rfl
      · rw [parseStringBody_plain c _ h34 h92 h32, ih]
        rfl

theorem jsonEscape_of_plain (k : List Char) (h : ∀ c ∈ k, needsEscape c = false) :
    jsonEscape k = k := by
  induction k with
  | nil => rfl
  | cons c cs ih =>
      have hc : needsEscape c = false := h c (List.mem_cons_self c cs)
      simp only [needsEscape, Bool.or_eq_false_iff, decide_eq_false_iff_not, beq_eq_false_iff_ne,
        ne_eq] at hc
      obtain ⟨⟨h32, h34⟩, h92⟩ := hc
      have hcs : jsonEscape cs = cs := ih (fun d hd => h d (List.mem_cons_of_mem c hd))
      have h8 : ¬ c.toNat = 8 := by omega
      have h9 : ¬ c.toNat = 9 := by omega
      have h10 : ¬ c.toNat = 10 := by omega
      have h12 : ¬ c.toNat = 12 := by omega
      have h13 : ¬ c.toNat = 13 := by omega
      simp only [jsonEscape, jsonEscapeChar, h8, h9, h10, h12, h13, h34, h92, h32, if_false, hcs,
        List.cons_append, List.nil_append]

theorem parseSingleMemberObject_stringifyObject (k : String) :
    parseSingleMemberObject (stringifyObject [("file_key", JSValue.str k)]) =
      some ("file_key", k) := by
  have hdata : (stringifyObject [("file_key", JSValue.str k)]).data =
      Char.ofNat 123 :: Char.ofNat 34 ::
        (jsonEscape "file_key".data ++ Char.ofNat 34 ::
          (Char.ofNat 58 :: Char.ofNat 34 :: (jsonEscape k.data ++ Char.ofNat 34 ::
            [Char.ofNat 125]))) := by
    simp [stringifyObject, serializeFields, jsonSerialize, quoteJSONString, String.intercalate,
      String.intercalate.go]
  unfold parseSingleMemberObject
  rw [hdata]
  have h123 : (Char.ofNat 123).toNat = 123 ∧ (Char.ofNat 34).toNat = 34 := by decide
  have h58 : (Char.ofNat 58).toNat = 58 ∧ (Char.ofNat 34).toNat = 34 := by decide
  have h125 : (Char.ofNat 125).toNat = 125 := by decide
  simp only [h123, if_true, parseStringBody_jsonEscape, h58, h125, and_self]

theorem intercalate_go_infix (x sep : String) (l : List String) (acc : String)
    (h : x ∈ l ∨ x.data <:+: acc.data) :
    x.data <:+: (String.intercalate.go acc sep l).data := by
  induction l generalizing acc with
  | nil =>
      rcases h with h | h
      · simp at h
      · simpa [String.intercalate.go] using h
  | cons a as ih =>
      simp only [String.intercalate.go]
      apply ih
      rcases h with h | h
      · rcases List.mem_cons.mp h with h | h
        · right
          subst h
          simp only [String.data_append]
          exact (List.suffix_append _ _).isInfix
        · left; exact h
      · right
        simp only [String.data_append, List.append_assoc]
        exact h.trans (List.prefix_append _ _).isInfix

theorem intercalate_infix (x sep : String) (l : List String) (h : x ∈ l) :
    x.data <:+: (String.intercalate sep l).data := by
  cases l with
  | nil => simp at h
  | cons a as =>
      simp only [String.intercalate]
      apply intercalate_go_infix
      rcases List.mem_cons.mp h with h | h
      · right; subst h; exact List.infix_refl _
      · left; exact h

theorem serializeFields_mem (fields : List (String × JSValue)) (name m : String)
    (h : fields.lookup name = some (JSValue.str m)) :
    ∃ key, (quoteJSONString key ++ ":" ++ quoteJSONString m) ∈ serializeFields fields := by
  induction fields with
  | nil => simp [List.lookup] at h
  | cons kv rest ih =>
      obtain ⟨k, v⟩ := kv
      simp only [List.lookup] at h
      cases hk : (name == k) with
      | true =>
          rw [hk] at h
          simp only [Option.some.injEq] at h
          subst h
          exact ⟨k, by simp only [serializeFields, jsonSerialize, List.mem_cons, true_or]⟩
      | false =>
          rw [hk] at h
          obtain ⟨key, hkey⟩ := ih h
          refine ⟨key, ?_⟩
          simp only [serializeFields]
          cases jsonSerialize v with
          | none => exact hkey
          | some t => exact List.mem_cons_of_mem _ hkey

theorem quote_infix_stringifyText (data : JSValue) (m : String)
    (h : data.getProp "msg" = Except.ok (JSValue.str m)) :
    (quoteJSONString m).data <:+: (stringifyText data).data := by
  cases data with
  | obj fields =>
      simp only [JSValue.getProp, Except.ok.injEq] at h
      have hl : fields.lookup "msg" = some (JSValue.str m) := by
        cases hlook : fields.lookup "msg" with
        | none => rw [hlook] at h; simp at h
        | some v => rw [hlook] at h; simpa using h
      obtain ⟨key, hkey⟩ := serializeFields_mem fields "msg" m hl
      have h1 := intercalate_infix _ "," _ hkey
      have h2 : (quoteJSONString m).data <:+:
          (quoteJSONString key ++ ":" ++ quoteJSONString m).data := by
        simp only [String.data_append]
        exact (List.suffix_append _ _).isInfix
      have h3 : (String.intercalate "," (serializeFields fields)).data <:+:
          (stringifyText (JSValue.obj fields)).data := by
        simp only [stringifyText, jsonSerialize, Option.getD_some, String.data_append]
        exact List.infix_append _ _ _
      exact (h2.trans h1).trans h3
  | _ => simp [JSValue.getProp] at h

theorem infix_quote_of_plain (m : String) (h : ∀ c ∈ m.data, needsEscape c = false) :
    m.data <:+: (quoteJSONString m).data := by
  simp only [quoteJSONString, jsonEscape_of_plain m.data h]
  exact List.infix_cons ((List.prefix_append _ _).isInfix)

/-! ## The claims -/

/-- C1: for every invocation without `--help` that lacks two or more of the five
required parameters (application id, application secret, recipient, audio file,
duration), the run ends with exit status 1 before any network call, and the
printed report lists exactly the messages of the missing parameters, one each,
in the fixed order: as many entries as parameters are missing. -/
theorem validateParams_reports_every_missing_parameter (args : Args) (env : ProcessEnv)
    (host : Host) (hhelp : args.help = false)
    (hmissing : 2 ≤ (missingParameters args env).count true) :
    (run args env host).exitCode = 1 ∧
    (run args env host).requests = [] ∧
    (run args env host).console =
      validationReport (validationErrors (resolveConfig args env)) ∧
    validationErrors (resolveConfig args env) =
      selectMessages (missingParameters args env) requiredParameterMessages ∧
    (validationErrors (resolveConfig args env)).length =
      (missingParameters args env).count true := by
  have hsel := validationErrors_eq_select args env
  have hlen : (validationErrors (resolveConfig args env)).length =
      (missingParameters args env).count true := by
    rw [hsel]
    exact selectMessages_length _ _ rfl
  have hne : validationErrors (resolveConfig args env) ≠ [] := by
    intro h
    rw [h] at hlen
    simp only [List.length_nil] at hlen
    omega
  have hrun : run args env host =
      ⟨1, validationReport (validationErrors (resolveConfig args env)), []⟩ := by
    rw [run_of_not_help args env host hhelp,
      main_of_exit _ host _ _ 1 (validateParams_errors _ host _ hne)]
    rfl
  rw [hrun]
  exact ⟨rfl, rfl, rfl, hsel, hlen⟩

/-- Witness for C1: no flag but an unparsable duration and no environment, so all
five parameters are missing and all five messages are reported. -/
theorem validateParams_reports_every_missing_parameter_witness :
    (run ⟨none, none, none, none, none, some "abc", false⟩ scenarioEnv
        (scenarioHost scenarioToken scenarioUpload scenarioSend)).exitCode = 1 ∧
    (run ⟨none, none, none, none, none, some "abc", false⟩ scenarioEnv
        (scenarioHost scenarioToken scenarioUpload scenarioSend)).requests = [] ∧
    (run ⟨none, none, none, none, none, some "abc", false⟩ scenarioEnv
        (scenarioHost scenarioToken scenarioUpload scenarioSend)).console =
      validationReport (validationErrors
        (resolveConfig ⟨none, none, none, none, none, some "abc", false⟩ scenarioEnv)) ∧
    validationErrors (resolveConfig ⟨none, none, none, none, none, some "abc", false⟩ scenarioEnv) =
      selectMessages (missingParameters ⟨none, none, none, none, none, some "abc", false⟩
        scenarioEnv) requiredParameterMessages ∧
    (validationErrors
        (resolveConfig ⟨none, none, none, none, none, some "abc", false⟩ scenarioEnv)).length =
      (missingParameters ⟨none, none, none, none, none, some "abc", false⟩ scenarioEnv).count true :=
  validateParams_reports_every_missing_parameter _ _ _ rfl (by decide)

/-- C4: with `--help` (or `-h`) the run prints the usage text and exits with
status 0, whatever the other flags, the environment and the file system are:
nothing else is printed (no validation report) and no request is made. -/
theorem help_prints_usage_and_exits_zero (args : Args) (env : ProcessEnv) (host : Host)
    (hhelp : args.help = true) :
    run args env host = ⟨0, [⟨Stream.log, [JSValue.str usageText]⟩], []⟩ :=
  run_of_help args env host hhelp

/-- Witness for C4: `--help` alone, every required parameter missing, no file. -/
theorem help_prints_usage_and_exits_zero_witness :
    run ⟨none, none, none, none, some "missing.opus", some "abc", true⟩ scenarioEnv
        (scenarioHost scenarioToken scenarioUpload scenarioSend) =
      ⟨0, [⟨Stream.log, [JSValue.str usageText]⟩], []⟩ :=
  help_prints_usage_and_exits_zero _ _ _ rfl

/-- C5: for every invocation without `--help` whose audio file path does not exist,
the run ends with exit status 1 and makes no request, whether or not the other
parameters are valid. -/
theorem missing_file_exits_before_network (args : Args) (env : ProcessEnv) (host : Host)
    (hhelp : args.help = false)
    (hfile : ∀ p, args.audioFile = some p → host.existsSync p = false) :
    (run args env host).exitCode = 1 ∧ (run args env host).requests = [] := by
  rw [run_of_not_help args env host hhelp]
  by_cases herr : validationErrors (resolveConfig args env) = []
  · have haudio := ((validationErrors_eq_nil_iff _).mp herr).2.2.2.1
    obtain ⟨p, hp, -⟩ := (truthy_iff _).mp haudio
    rw [main_of_exit _ host _ _ 1
      (validateParams_missing_file _ host _ p herr hp (hfile p hp))]
    exact ⟨rfl, rfl⟩
  · rw [main_of_exit _ host _ _ 1 (validateParams_errors _ host _ herr)]
    exact ⟨rfl, rfl⟩

/-- Witness for C5: the scenario invocation with a path that is not on disk. -/
theorem missing_file_exits_before_network_witness :
    (run ⟨some "cli_test", some "secret_test", some "ou_123", none, some "absent.opus",
        some "3480", false⟩ scenarioEnv
        (scenarioHost scenarioToken scenarioUpload scenarioSend)).exitCode = 1 ∧
    (run ⟨some "cli_test", some "secret_test", some "ou_123", none, some "absent.opus",
        some "3480", false⟩ scenarioEnv
        (scenarioHost scenarioToken scenarioUpload scenarioSend)).requests = [] :=
  missing_file_exits_before_network _ _ _ rfl (by
    intro p hp
    have h : p = "absent.opus" := (Option.some.inj hp).symm
    subst h
    decide)

/-- C2: for every validated configuration, if the body of the token response has
a `code` that is not `0`, then `getTenantAccessToken` throws, the token request
is the only request of the run, and the exit status is 1. -/
theorem token_failure_stops_the_run (args : Args) (env : ProcessEnv) (host : Host)
    (data code : JSValue) (hhelp : args.help = false)
    (hvalid : validates (resolveConfig args env) host = true)
    (hfetch : host.fetch (tokenRequest (resolveConfig args env)) = Except.ok data)
    (hcode : data.getProp "code" = Except.ok code)
    (hne : strictNeZero code = true) :
    (∀ t, ∃ message, getTenantAccessToken (resolveConfig args env) host t =
      (Completion.thrown message,
       { t with requests := t.requests ++ [tokenRequest (resolveConfig args env)] })) ∧
    (run args env host).requests = [tokenRequest (resolveConfig args env)] ∧
    (run args env host).exitCode = 1 := by
  have hthrow : ∀ t, ∃ message, getTenantAccessToken (resolveConfig args env) host t =
      (Completion.thrown message,
       { t with requests := t.requests ++ [tokenRequest (resolveConfig args env)] }) := by
    intro t
    exact getTenantAccessToken_fail _ host t data code hfetch hcode hne
  refine ⟨hthrow, ?_⟩
  obtain ⟨-, p, hp, -⟩ := (validates_iff _ _).mp hvalid
  obtain ⟨message, hm⟩ := hthrow
    ⟨extensionWarning p ++ banner (resolveConfig args env) host p, []⟩
  rw [run_of_valid args env host p hhelp hvalid hp,
    tryCatch_of_thrown _ _ _ message (tryBlock_of_token_thrown _ host _ _ message hm)]
  exact ⟨rfl, rfl⟩

/-- Witness for C2: the scenario with a token response `{code: 10003, msg: "invalid param"}`. -/
theorem token_failure_stops_the_run_witness :
    (∀ t, ∃ message,
      getTenantAccessToken
          (resolveConfig (scenarioArgs (some "ou_123") none "3480") scenarioEnv)
          (scenarioHost (responseBody 10003 [("msg", JSValue.str "invalid param")])
            scenarioUpload scenarioSend) t =
        (Completion.thrown message,
         { t with requests := t.requests ++
            [tokenRequest (resolveConfig (scenarioArgs (some "ou_123") none "3480")
              scenarioEnv)] })) ∧
    (run (scenarioArgs (some "ou_123") none "3480") scenarioEnv
        (scenarioHost (responseBody 10003 [("msg", JSValue.str "invalid param")])
          scenarioUpload scenarioSend)).requests =
      [tokenRequest (resolveConfig (scenarioArgs (some "ou_123") none "3480") scenarioEnv)] ∧
    (run (scenarioArgs (some "ou_123") none "3480") scenarioEnv
        (scenarioHost (responseBody 10003 [("msg", JSValue.str "invalid param")])
          scenarioUpload scenarioSend)).exitCode = 1 :=
  token_failure_stops_the_run _ _ _
    (responseBody 10003 [("msg", JSValue.str "invalid param")])
    (JSValue.num (JSNumber.int 10003)) rfl (by decide) rfl rfl rfl

/-- C3: after a successful token response (returning the bearer string `token`)
and a successful upload response whose `data.file_key` is the string `k`, the
run's third request is the send request built from that token and that key: its
`Authorization` header is `Bearer` followed by the token, its body has
`msg_type` `audio` and a `content` string that is the JSON text of an object
with the single member `file_key`, and reading that text back gives `k`
unchanged. -/
theorem send_request_carries_uploaded_file_key (args : Args) (env : ProcessEnv) (host : Host)
    (p k token : String) (tokenData uploadData inner : JSValue) (audioBuffer : List Nat)
    (hhelp : args.help = false) (hvalid : validates (resolveConfig args env) host = true)
    (hp : args.audioFile = some p) (hread : host.readFileSync p = Except.ok audioBuffer)
    (htoken : host.fetch (tokenRequest (resolveConfig args env)) = Except.ok tokenData)
    (htokenCode : tokenData.getProp "code" = Except.ok (JSValue.num (JSNumber.int 0)))
    (htokenValue : tokenData.getProp "tenant_access_token" = Except.ok (JSValue.str token))
    (hupload : host.fetch (uploadRequest (resolveConfig args env) token audioBuffer
      (host.basename p)) = Except.ok uploadData)
    (huploadCode : uploadData.getProp "code" = Except.ok (JSValue.num (JSNumber.int 0)))
    (huploadData : uploadData.getProp "data" = Except.ok inner)
    (hkey : inner.getProp "file_key" = Except.ok (JSValue.str k)) :
    (run args env host).requests =
      [tokenRequest (resolveConfig args env),
       uploadRequest (resolveConfig args env) token audioBuffer (host.basename p),
       sendRequest (resolveConfig args env) token (JSValue.str k)] ∧
    (uploadRequest (resolveConfig args env) token audioBuffer (host.basename p)).headers =
      [("Authorization", "Bearer " ++ token)] ∧
    (sendRequest (resolveConfig args env) token (JSValue.str k)).headers =
      [("Authorization", "Bearer " ++ token),
       ("Content-Type", "application/json; charset=utf-8")] ∧
    (sendRequest (resolveConfig args env) token (JSValue.str k)).body =
      RequestBody.text (stringifyObject
        [("receive_id", optValue (receiveId (resolveConfig args env))),
         ("msg_type", JSValue.str "audio"),
         ("content", JSValue.str (stringifyObject [("file_key", JSValue.str k)]))]) ∧
    parseSingleMemberObject (stringifyObject [("file_key", JSValue.str k)]) =
      some ("file_key", k) :=
  ⟨requests_of_upload args env host p token tokenData (JSValue.str token) uploadData inner
      (JSValue.str k) audioBuffer hhelp hvalid hp hread htoken htokenCode htokenValue rfl hupload
      huploadCode huploadData hkey,
    rfl, rfl, rfl, parseSingleMemberObject_stringifyObject k⟩

/-- Witness for C3: the scenario with a file key that needs escaping, `f-"1"`, and
a send endpoint that fails. -/
theorem send_request_carries_uploaded_file_key_witness :
    (run (scenarioArgs (some "ou_123") none "3480") scenarioEnv
        (scenarioHost scenarioToken
          (responseBody 0 [("data", JSValue.obj [("file_key", JSValue.str "f-\"1\"")])])
          JSValue.null)).requests =
      [tokenRequest (resolveConfig (scenarioArgs (some "ou_123") none "3480") scenarioEnv),
       uploadRequest (resolveConfig (scenarioArgs (some "ou_123") none "3480") scenarioEnv)
         "t-1" [79, 103, 103, 83] "sample.opus",
       sendRequest (resolveConfig (scenarioArgs (some "ou_123") none "3480") scenarioEnv)
         "t-1" (JSValue.str "f-\"1\"")] ∧
    (uploadRequest (resolveConfig (scenarioArgs (some "ou_123") none "3480") scenarioEnv)
        "t-1" [79, 103, 103, 83] "sample.opus").headers =
      [("Authorization", "Bearer t-1")] ∧
    (sendRequest (resolveConfig (scenarioArgs (some "ou_123") none "3480") scenarioEnv)
        "t-1" (JSValue.str "f-\"1\"")).headers =
      [("Authorization", "Bearer t-1"), ("Content-Type", "application/json; charset=utf-8")] ∧
    (sendRequest (resolveConfig (scenarioArgs (some "ou_123") none "3480") scenarioEnv)
        "t-1" (JSValue.str "f-\"1\"")).body =
      RequestBody.text (stringifyObject
        [("receive_id", JSValue.str "ou_123"),
         ("msg_type", JSValue.str "audio"),
         ("content", JSValue.str (stringifyObject [("file_key", JSValue.str "f-\"1\"")]))]) ∧
    parseSingleMemberObject (stringifyObject [("file_key", JSValue.str "f-\"1\"")]) =
      some ("file_key", "f-\"1\"") :=
  send_request_carries_uploaded_file_key (scenarioArgs (some "ou_123") none "3480") scenarioEnv
    (scenarioHost scenarioToken
      (responseBody 0 [("data", JSValue.obj [("file_key", JSValue.str "f-\"1\"")])])
      JSValue.null)
    "sample.opus" "f-\"1\"" "t-1" scenarioToken
    (responseBody 0 [("data", JSValue.obj [("file_key", JSValue.str "f-\"1\"")])])
    (JSValue.obj [("file_key", JSValue.str "f-\"1\"")]) [79, 103, 103, 83]
    rfl (by decide) rfl rfl rfl rfl rfl rfl rfl rfl rfl

/-- C6: for every validated configuration, when the token, upload and send
responses all have `code` `0` and their payload members (the token a bearer
string), the run makes exactly three requests, in the order token, upload,
send; prints the message identifier of the send response; ends with exit status
0; and with a user id set the send request uses `receive_id_type=open_id`. -/
theorem successful_run_sends_in_order (args : Args) (env : ProcessEnv) (host : Host)
    (p token : String)
    (tokenData uploadData inner fileKey sendData sendInner messageId : JSValue)
    (audioBuffer : List Nat)
    (hhelp : args.help = false) (hvalid : validates (resolveConfig args env) host = true)
    (hp : args.audioFile = some p) (hread : host.readFileSync p = Except.ok audioBuffer)
    (htoken : host.fetch (tokenRequest (resolveConfig args env)) = Except.ok tokenData)
    (htokenCode : tokenData.getProp "code" = Except.ok (JSValue.num (JSNumber.int 0)))
    (htokenValue : tokenData.getProp "tenant_access_token" = Except.ok (JSValue.str token))
    (hupload : host.fetch (uploadRequest (resolveConfig args env) token audioBuffer
      (host.basename p)) = Except.ok uploadData)
    (huploadCode : uploadData.getProp "code" = Except.ok (JSValue.num (JSNumber.int 0)))
    (huploadData : uploadData.getProp "data" = Except.ok inner)
    (hkey : inner.getProp "file_key" = Except.ok fileKey)
    (hsend : host.fetch (sendRequest (resolveConfig args env) token fileKey) = Except.ok sendData)
    (hsendCode : sendData.getProp "code" = Except.ok (JSValue.num (JSNumber.int 0)))
    (hsendData : sendData.getProp "data" = Except.ok sendInner)
    (hid : sendInner.getProp "message_id" = Except.ok messageId) :
    (run args env host).requests =
      [tokenRequest (resolveConfig args env),
       uploadRequest (resolveConfig args env) token audioBuffer (host.basename p),
       sendRequest (resolveConfig args env) token fileKey] ∧
    (⟨Stream.log, [JSValue.str "   Message ID:", messageId]⟩ : ConsoleCall) ∈
      (run args env host).console ∧
    (run args env host).exitCode = 0 ∧
    (truthy args.userId = true →
      (sendRequest (resolveConfig args env) token fileKey).url =
        "https://open.feishu.cn/open-apis/im/v1/messages?receive_id_type=open_id") := by
  rw [run_of_send_ok args env host p token tokenData (JSValue.str token) uploadData inner fileKey
    sendData sendInner messageId audioBuffer hhelp hvalid hp hread htoken htokenCode htokenValue
    rfl hupload huploadCode huploadData hkey hsend hsendCode hsendData hid]
  refine ⟨rfl, ?_, rfl, ?_⟩
  · simp only [List.mem_append, List.mem_cons, true_or, or_true]
  · intro hu
    have hu2 : truthy (resolveConfig args env).USER_ID = true := hu
    simp only [sendRequest, receiveIdType, hu2, if_true]
    rfl

/-- Witness for C6: the end-to-end scenario (`cli_test`, `secret_test`, `ou_123`,
`sample.opus`, `3480`, token `t-1`, file key `f-1`, message id `m-1`). -/
theorem successful_run_sends_in_order_witness :
    (run (scenarioArgs (some "ou_123") none "3480") scenarioEnv
        (scenarioHost scenarioToken scenarioUpload scenarioSend)).requests =
      [tokenRequest (resolveConfig (scenarioArgs (some "ou_123") none "3480") scenarioEnv),
       uploadRequest (resolveConfig (scenarioArgs (some "ou_123") none "3480") scenarioEnv)
         "t-1" [79, 103, 103, 83] "sample.opus",
       sendRequest (resolveConfig (scenarioArgs (some "ou_123") none "3480") scenarioEnv)
         "t-1" (JSValue.str "f-1")] ∧
    (⟨Stream.log, [JSValue.str "   Message ID:", JSValue.str "m-1"]⟩ : ConsoleCall) ∈
      (run (scenarioArgs (some "ou_123") none "3480") scenarioEnv
        (scenarioHost scenarioToken scenarioUpload scenarioSend)).console ∧
    (run (scenarioArgs (some "ou_123") none "3480") scenarioEnv
        (scenarioHost scenarioToken scenarioUpload scenarioSend)).exitCode = 0 ∧
    (truthy (scenarioArgs (some "ou_123") none "3480").userId = true →
      (sendRequest (resolveConfig (scenarioArgs (some "ou_123") none "3480") scenarioEnv)
          "t-1" (JSValue.str "f-1")).url =
        "https://open.feishu.cn/open-apis/im/v1/messages?receive_id_type=open_id") :=
  successful_run_sends_in_order (scenarioArgs (some "ou_123") none "3480") scenarioEnv
    (scenarioHost scenarioToken scenarioUpload scenarioSend) "sample.opus" "t-1"
    scenarioToken scenarioUpload
    (JSValue.obj [("file_key", JSValue.str "f-1")]) (JSValue.str "f-1") scenarioSend
    (JSValue.obj [("message_id", JSValue.str "m-1")]) (JSValue.str "m-1") [79, 103, 103, 83]
    rfl (by decide) rfl rfl rfl rfl rfl rfl rfl rfl rfl rfl rfl rfl rfl

/-- Counterexample for C7: the scenario with the send response
`{code: 99991400, msg: "bad \"token\""}`.  The run exits with status 1 and the
printed error text carries the message JSON-escaped, so the message itself is
not a substring of it. -/
theorem send_failure_text_escapes_message :
    (run (scenarioArgs (some "ou_123") none "3480") scenarioEnv
        (scenarioHost scenarioToken scenarioUpload
          (responseBody 99991400 [("msg", JSValue.str "bad \"token\"")]))).exitCode = 1 ∧
    (run (scenarioArgs (some "ou_123") none "3480") scenarioEnv
        (scenarioHost scenarioToken scenarioUpload
          (responseBody 99991400 [("msg", JSValue.str "bad \"token\"")]))).console.getLast? =
      some (errorReport
        "Failed to send message: \x7b\"code\":99991400,\"msg\":\"bad \\\"token\\\"\"\x7d") ∧
    ¬ ("bad \"token\"".data <:+:
        "Failed to send message: \x7b\"code\":99991400,\"msg\":\"bad \\\"token\\\"\"\x7d".data) := by
  exact ⟨by decide, rfl, by decide⟩

/-- C7 (amended): for every validated configuration with successful token and
upload steps (the token a bearer string) and every send response with a `code`
other than `0` and message text `m`, the run exits with status 1 and the last
thing printed is the error `Failed to send message: ` followed by the JSON text
of the response; that text contains `m` as a JSON string literal (quoted and
escaped), and contains `m` itself whenever `m` has no double quote, backslash
or control character. -/
theorem send_failure_reports_response_body (args : Args) (env : ProcessEnv) (host : Host)
    (p m token : String) (tokenData uploadData inner fileKey sendData code : JSValue)
    (audioBuffer : List Nat)
    (hhelp : args.help = false) (hvalid : validates (resolveConfig args env) host = true)
    (hp : args.audioFile = some p) (hread : host.readFileSync p = Except.ok audioBuffer)
    (htoken : host.fetch (tokenRequest (resolveConfig args env)) = Except.ok tokenData)
    (htokenCode : tokenData.getProp "code" = Except.ok (JSValue.num (JSNumber.int 0)))
    (htokenValue : tokenData.getProp "tenant_access_token" = Except.ok (JSValue.str token))
    (hupload : host.fetch (uploadRequest (resolveConfig args env) token audioBuffer
      (host.basename p)) = Except.ok uploadData)
    (huploadCode : uploadData.getProp "code" = Except.ok (JSValue.num (JSNumber.int 0)))
    (huploadData : uploadData.getProp "data" = Except.ok inner)
    (hkey : inner.getProp "file_key" = Except.ok fileKey)
    (hsend : host.fetch (sendRequest (resolveConfig args env) token fileKey) = Except.ok sendData)
    (hsendCode : sendData.getProp "code" = Except.ok code)
    (hne : strictNeZero code = true)
    (hmsg : sendData.getProp "msg" = Except.ok (JSValue.str m)) :
    (run args env host).exitCode = 1 ∧
    (run args env host).console.getLast? =
      some (errorReport ("Failed to send message: " ++ stringifyText sendData)) ∧
    (quoteJSONString m).data <:+: ("Failed to send message: " ++ stringifyText sendData).data ∧
    ((∀ c ∈ m.data, needsEscape c = false) →
      m.data <:+: ("Failed to send message: " ++ stringifyText sendData).data) := by
  rw [run_of_send_fail args env host p token tokenData (JSValue.str token) uploadData inner
    fileKey sendData code audioBuffer hhelp hvalid hp hread htoken htokenCode htokenValue rfl
    hupload huploadCode huploadData hkey hsend hsendCode hne]
  have hq : (quoteJSONString m).data <:+:
      ("Failed to send message: " ++ stringifyText sendData).data := by
    rw [String.data_append]
    exact (quote_infix_stringifyText sendData m hmsg).trans (List.suffix_append _ _).isInfix
  refine ⟨rfl, ?_, hq, fun hplain => (infix_quote_of_plain m hplain).trans hq⟩
  simp only [List.getLast?_append, List.getLast?_cons_cons, List.getLast?_singleton]
  rfl

/-- Witness for C7: the failure scenario of the specification, a send response
`{code: 99991400, msg: "invalid token"}`. -/
theorem send_failure_reports_response_body_witness :
    (run (scenarioArgs (some "ou_123") none "3480") scenarioEnv
        (scenarioHost scenarioToken scenarioUpload
          (responseBody 99991400 [("msg", JSValue.str "invalid token")]))).exitCode = 1 ∧
    (run (scenarioArgs (some "ou_123") none "3480") scenarioEnv
        (scenarioHost scenarioToken scenarioUpload
          (responseBody 99991400 [("msg", JSValue.str "invalid token")]))).console.getLast? =
      some (errorReport ("Failed to send message: " ++
        stringifyText (responseBody 99991400 [("msg", JSValue.str "invalid token")]))) ∧
    (quoteJSONString "invalid token").data <:+: ("Failed to send message: " ++
        stringifyText (responseBody 99991400 [("msg", JSValue.str "invalid token")])).data ∧
    ((∀ c ∈ "invalid token".data, needsEscape c = false) →
      "invalid token".data <:+: ("Failed to send message: " ++
        stringifyText (responseBody 99991400 [("msg", JSValue.str "invalid token")])).data) :=
  send_failure_reports_response_body (scenarioArgs (some "ou_123") none "3480") scenarioEnv
    (scenarioHost scenarioToken scenarioUpload
      (responseBody 99991400 [("msg", JSValue.str "invalid token")]))
    "sample.opus" "invalid token" "t-1" scenarioToken scenarioUpload
    (JSValue.obj [("file_key", JSValue.str "f-1")]) (JSValue.str "f-1")
    (responseBody 99991400 [("msg", JSValue.str "invalid token")])
    (JSValue.num (JSNumber.int 99991400)) [79, 103, 103, 83]
    rfl (by decide) rfl rfl rfl rfl rfl rfl rfl rfl rfl rfl rfl rfl rfl

/-- C8: for every invocation with both a non-empty user id and a non-empty chat id
and the other parameters valid, validation reports no recipient error and
succeeds with both ids still set; the recipient is resolved to the user id (`receive_id_type` is
`open_id`, `receive_id` is the user id); and for any configuration the chat id is
used (`chat_id`, with the chat id as `receive_id`) exactly when the user id is
absent or empty. -/
theorem recipient_resolution_prefers_user_id (args : Args) (env : ProcessEnv) (host : Host)
    (u c : String) (hu : args.userId = some u) (hune : u ≠ "")
    (hc : args.chatId = some c) (hcne : c ≠ "")
    (hothers : missingParameters args env = [false, false, false, false, false])
    (hfile : ∀ p, args.audioFile = some p → host.existsSync p = true) :
    "Missing --user-id or --chat-id" ∉ validationErrors (resolveConfig args env) ∧
    validates (resolveConfig args env) host = true ∧
    truthy (resolveConfig args env).USER_ID = true ∧
    truthy (resolveConfig args env).CHAT_ID = true ∧
    receiveIdType (resolveConfig args env) = "open_id" ∧
    receiveId (resolveConfig args env) = some u ∧
    (∀ token fileKey, (sendRequest (resolveConfig args env) token fileKey).url =
        "https://open.feishu.cn/open-apis/im/v1/messages?receive_id_type=open_id" ∧
      (sendRequest (resolveConfig args env) token fileKey).body =
        RequestBody.text (stringifyObject
          [("receive_id", JSValue.str u), ("msg_type", JSValue.str "audio"),
           ("content", JSValue.str (stringifyObject [("file_key", fileKey)]))])) ∧
    (∀ cfg : Config, (receiveIdType cfg = "chat_id" ↔ absentOrEmpty cfg.USER_ID = true) ∧
      (absentOrEmpty cfg.USER_ID = true → receiveId cfg = cfg.CHAT_ID)) := by
  have herr : validationErrors (resolveConfig args env) = [] := by
    rw [validationErrors_eq_select, hothers]
    rfl
  have htu : truthy (resolveConfig args env).USER_ID = true :=
    (truthy_iff _).mpr ⟨u, hu, hune⟩
  have htype : receiveIdType (resolveConfig args env) = "open_id" := by
    simp only [receiveIdType, htu, if_true]
  have hid : receiveId (resolveConfig args env) = some u := by
    simp only [receiveId, jsOr, htu, if_true]
    exact hu
  have htc : truthy (resolveConfig args env).CHAT_ID = true :=
    (truthy_iff _).mpr ⟨c, hc, hcne⟩
  refine ⟨by rw [herr]; exact List.not_mem_nil _, ?_, htu, htc, htype, hid, ?_, ?_⟩
  · have haudio := ((validationErrors_eq_nil_iff _).mp herr).2.2.2.1
    obtain ⟨p, hp, -⟩ := (truthy_iff _).mp haudio
    exact (validates_iff _ _).mpr ⟨herr, p, hp, hfile p hp⟩
  · intro token fileKey
    constructor
    · simp only [sendRequest, htype]
      rfl
    · simp only [sendRequest, hid]
      rfl
  · intro cfg
    have hab : absentOrEmpty cfg.USER_ID = !truthy cfg.USER_ID := by
      rw [truthy_eq_not_absentOrEmpty, Bool.not_not]
    rw [hab]
    cases ht : truthy cfg.USER_ID
    · simp only [receiveIdType, receiveId, jsOr, ht, Bool.false_eq_true, if_false, Bool.not_false,
        true_iff, forall_const, and_self]
    · simp only [receiveIdType, receiveId, jsOr, ht, if_true, Bool.not_true, Bool.false_eq_true,
        iff_false, false_implies, and_true]
      decide

/-- Witness for C8: the scenario with both `--user-id ou_123` and `--chat-id oc_456`. -/
theorem recipient_resolution_prefers_user_id_witness :
    "Missing --user-id or --chat-id" ∉
      validationErrors (resolveConfig (scenarioArgs (some "ou_123") (some "oc_456") "3480")
        scenarioEnv) ∧
    validates (resolveConfig (scenarioArgs (some "ou_123") (some "oc_456") "3480") scenarioEnv)
      (scenarioHost scenarioToken scenarioUpload scenarioSend) = true ∧
    truthy (resolveConfig (scenarioArgs (some "ou_123") (some "oc_456") "3480")
      scenarioEnv).USER_ID = true ∧
    truthy (resolveConfig (scenarioArgs (some "ou_123") (some "oc_456") "3480")
      scenarioEnv).CHAT_ID = true ∧
    receiveIdType (resolveConfig (scenarioArgs (some "ou_123") (some "oc_456") "3480")
      scenarioEnv) = "open_id" ∧
    receiveId (resolveConfig (scenarioArgs (some "ou_123") (some "oc_456") "3480")
      scenarioEnv) = some "ou_123" ∧
    (∀ token fileKey,
      (sendRequest (resolveConfig (scenarioArgs (some "ou_123") (some "oc_456") "3480")
          scenarioEnv) token fileKey).url =
        "https://open.feishu.cn/open-apis/im/v1/messages?receive_id_type=open_id" ∧
      (sendRequest (resolveConfig (scenarioArgs (some "ou_123") (some "oc_456") "3480")
          scenarioEnv) token fileKey).body =
        RequestBody.text (stringifyObject
          [("receive_id", JSValue.str "ou_123"), ("msg_type", JSValue.str "audio"),
           ("content", JSValue.str (stringifyObject [("file_key", fileKey)]))])) ∧
    (∀ cfg : Config, (receiveIdType cfg = "chat_id" ↔ absentOrEmpty cfg.USER_ID = true) ∧
      (absentOrEmpty cfg.USER_ID = true → receiveId cfg = cfg.CHAT_ID)) :=
  recipient_resolution_prefers_user_id
    (scenarioArgs (some "ou_123") (some "oc_456") "3480") scenarioEnv
    (scenarioHost scenarioToken scenarioUpload scenarioSend) "ou_123" "oc_456"
    rfl (by decide) rfl (by decide) (by decide) (by
      intro p hp
      have h : p = "sample.opus" := (Option.some.inj hp).symm
      subst h
      decide)

/-- Counterexample for C9: the scenario with both `--user-id ou_123` and
`--chat-id oc_456` passes `validateParams` although two recipient types are set. -/
theorem validation_accepts_two_recipients :
    validates (resolveConfig (scenarioArgs (some "ou_123") (some "oc_456") "3480") scenarioEnv)
      (scenarioHost scenarioToken scenarioUpload scenarioSend) = true ∧
    (resolveConfig (scenarioArgs (some "ou_123") (some "oc_456") "3480") scenarioEnv).USER_ID =
      some "ou_123" ∧
    (resolveConfig (scenarioArgs (some "ou_123") (some "oc_456") "3480") scenarioEnv).CHAT_ID =
      some "oc_456" :=
  ⟨by decide, rfl, rfl⟩

/-- C9 (amended): every configuration that passes `validateParams` has at least
one recipient set: the user id or the chat id is a non-empty string. -/
theorem validated_has_a_recipient (cfg : Config) (host : Host)
    (hvalid : validates cfg host = true) :
    ∃ s, s ≠ "" ∧ (cfg.USER_ID = some s ∨ cfg.CHAT_ID = some s) := by
  obtain ⟨herr, -⟩ := (validates_iff cfg host).mp hvalid
  rcases ((validationErrors_eq_nil_iff cfg).mp herr).2.2.1 with h | h
  · obtain ⟨s, hs, hne⟩ := (truthy_iff _).mp h
    exact ⟨s, hne, Or.inl hs⟩
  · obtain ⟨s, hs, hne⟩ := (truthy_iff _).mp h
    exact ⟨s, hne, Or.inr hs⟩

/-- Witness for C9: the scenario with only `--chat-id oc_456`. -/
theorem validated_has_a_recipient_witness :
    ∃ s, s ≠ "" ∧
      ((resolveConfig (scenarioArgs none (some "oc_456") "3480") scenarioEnv).USER_ID = some s ∨
       (resolveConfig (scenarioArgs none (some "oc_456") "3480") scenarioEnv).CHAT_ID = some s) :=
  validated_has_a_recipient
    (resolveConfig (scenarioArgs none (some "oc_456") "3480") scenarioEnv)
    (scenarioHost scenarioToken scenarioUpload scenarioSend) (by decide)

set_option maxRecDepth 100000

/-- Counterexample for C10: a duration of `1` followed by 309 zeros parses to
`Infinity`, which is not an integer, yet the configuration passes validation and
the upload form carries the duration `Infinity`; and a duration of `2^60` is a
positive integer whose form field is not its decimal string. -/
theorem duration_beyond_double_range_is_accepted :
    validates (resolveConfig (scenarioArgs (some "ou_123") none "1000000000000000000000000000000000000000000000000000000000000000000000000000000000000000000000000000000000000000000000000000000000000000000000000000000000000000000000000000000000000000000000000000000000000000000000000000000000000000000000000000000000000000000000000000000000000000000000000000000000000000000000") scenarioEnv)
      (scenarioHost scenarioToken scenarioUpload scenarioSend) = true ∧
    (resolveConfig (scenarioArgs (some "ou_123") none "1000000000000000000000000000000000000000000000000000000000000000000000000000000000000000000000000000000000000000000000000000000000000000000000000000000000000000000000000000000000000000000000000000000000000000000000000000000000000000000000000000000000000000000000000000000000000000000000000000000000000000000000") scenarioEnv).DURATION_MS =
      JSNumber.posInf ∧
    (uploadRequest (resolveConfig (scenarioArgs (some "ou_123") none "1000000000000000000000000000000000000000000000000000000000000000000000000000000000000000000000000000000000000000000000000000000000000000000000000000000000000000000000000000000000000000000000000000000000000000000000000000000000000000000000000000000000000000000000000000000000000000000000000000000000000000000000") scenarioEnv)
        "t-1" [79, 103, 103, 83] "sample.opus").body =
      RequestBody.form
        [("file_type", FormValue.text "opus"), ("file_name", FormValue.text "sample.opus"),
         ("duration", FormValue.text "Infinity"),
         ("file", FormValue.file [79, 103, 103, 83] "sample.opus")] ∧
    (resolveConfig (scenarioArgs (some "ou_123") none "1152921504606846976")
      scenarioEnv).DURATION_MS = JSNumber.int 1152921504606846976 ∧
    (uploadRequest (resolveConfig (scenarioArgs (some "ou_123") none "1152921504606846976")
        scenarioEnv) "t-1" [79, 103, 103, 83] "sample.opus").body =
      RequestBody.form
        [("file_type", FormValue.text "opus"), ("file_name", FormValue.text "sample.opus"),
         ("duration", FormValue.text "1152921504606847000"),
         ("file", FormValue.file [79, 103, 103, 83] "sample.opus")] := by
  have hbig : (resolveConfig (scenarioArgs (some "ou_123") none "1000000000000000000000000000000000000000000000000000000000000000000000000000000000000000000000000000000000000000000000000000000000000000000000000000000000000000000000000000000000000000000000000000000000000000000000000000000000000000000000000000000000000000000000000000000000000000000000000000000000000000000000") scenarioEnv).DURATION_MS =
      JSNumber.posInf := by decide
  have h60 : (resolveConfig (scenarioArgs (some "ou_123") none "1152921504606846976")
      scenarioEnv).DURATION_MS = JSNumber.int 1152921504606846976 := by decide
  have hs60 : numberToString (JSNumber.int 1152921504606846976) = "1152921504606847000" := by
    decide
  refine ⟨by decide, hbig, ?_, h60, ?_⟩
  · simp only [uploadRequest, hbig]
    rfl
  · simp only [uploadRequest, h60, hs60]

/-- C10 (amended): `validateParams` reports `Missing or invalid --duration` exactly
when `--duration` is absent, empty, or not parsed by `parseInt` (base 10) to a
number greater than 0; every configuration that passes validation has
`DURATION_MS` a positive integer or `Infinity`; and when `DURATION_MS` is an
integer below `2^53` the `duration` field of the upload form is its decimal
string. -/
theorem duration_is_validated_and_sent (args : Args) (env : ProcessEnv) :
    ("Missing or invalid --duration" ∈ validationErrors (resolveConfig args env) ↔
      ¬ ∃ s, args.duration = some s ∧ s ≠ "" ∧ isPositiveNumber (parseInt s) = true) ∧
    (∀ host, validates (resolveConfig args env) host = true →
      (∃ n : Nat, 0 < n ∧ (resolveConfig args env).DURATION_MS = JSNumber.int n) ∨
      (resolveConfig args env).DURATION_MS = JSNumber.posInf) ∧
    (∀ n : Nat, (resolveConfig args env).DURATION_MS = JSNumber.int n → n < 2 ^ 53 →
      ∀ token audioBuffer fileName,
        (uploadRequest (resolveConfig args env) token audioBuffer fileName).body =
          RequestBody.form
            [("file_type", FormValue.text "opus"), ("file_name", FormValue.text fileName),
             ("duration", FormValue.text (Nat.repr n)),
             ("file", FormValue.file audioBuffer fileName)]) := by
  refine ⟨?_, ?_, ?_⟩
  · rw [validationErrors_eq_select]
    unfold missingParameters
    rw [duration_message_mem_select]
    cases hd : args.duration with
    | none => simp
    | some s =>
        by_cases hs : s = ""
        · simp [hs]
        · simp [hs]
  · intro host hvalid
    obtain ⟨herr, -⟩ := (validates_iff _ _).mp hvalid
    have hcheck := ((validationErrors_eq_nil_iff _).mp herr).2.2.2.2
    have hnf : ∀ text, (resolveConfig args env).DURATION_MS ≠ JSNumber.frac text :=
      fun text => parseInt_ne_frac _ text
    rw [durationCheck_eq _ hnf] at hcheck
    cases hdur : (resolveConfig args env).DURATION_MS with
    | int v =>
        rw [hdur] at hcheck
        simp only [isPositiveNumber, Bool.not_eq_false', decide_eq_true_eq] at hcheck
        left
        refine ⟨v.toNat, by omega, ?_⟩
        congr 1
        omega
    | posInf => right; rfl
    | nan => rw [hdur] at hcheck; simp [isPositiveNumber] at hcheck
    | negInf => rw [hdur] at hcheck; simp [isPositiveNumber] at hcheck
    | frac text => exact absurd hdur (hnf text)
  · intro n hn hlt token audioBuffer fileName
    have hneg : ¬ ((n : Int) < 0) := by omega
    simp only [uploadRequest, hn, numberToString, hneg, if_false, Int.natAbs_ofNat,
      natNumberToString_of_lt n hlt]

/-- Witness for C10: the scenario duration `3480` is not reported, the validated
configuration has a positive integer or `Infinity` as `DURATION_MS` (here the
integer 3480), and the form field is the string `3480`. -/
theorem duration_is_validated_and_sent_witness :
    "Missing or invalid --duration" ∉
      validationErrors (resolveConfig (scenarioArgs (some "ou_123") none "3480") scenarioEnv) ∧
    ((∃ n : Nat, 0 < n ∧
        (resolveConfig (scenarioArgs (some "ou_123") none "3480") scenarioEnv).DURATION_MS =
          JSNumber.int n) ∨
      (resolveConfig (scenarioArgs (some "ou_123") none "3480") scenarioEnv).DURATION_MS =
        JSNumber.posInf) ∧
    (uploadRequest (resolveConfig (scenarioArgs (some "ou_123") none "3480") scenarioEnv)
        "t-1" [79, 103, 103, 83] "sample.opus").body =
      RequestBody.form
        [("file_type", FormValue.text "opus"), ("file_name", FormValue.text "sample.opus"),
         ("duration", FormValue.text (Nat.repr 3480)),
         ("file", FormValue.file [79, 103, 103, 83] "sample.opus")] :=
  ⟨fun h => ((duration_is_validated_and_sent (scenarioArgs (some "ou_123") none "3480")
      scenarioEnv).1.mp h) ⟨"3480", rfl, by decide, by decide⟩,
    (duration_is_validated_and_sent (scenarioArgs (some "ou_123") none "3480")
      scenarioEnv).2.1 (scenarioHost scenarioToken scenarioUpload scenarioSend) (by decide),
    (duration_is_validated_and_sent (scenarioArgs (some "ou_123") none "3480")
      scenarioEnv).2.2 3480 (by decide) (by decide) _ _ _⟩

end SendVoice
